import Mathlib

/-! Discovery module of the Firebolt core SDK: request marshalling and dispatch.

A shallow embedding of `sdks/core/src/cpp/templates/Discovery/src/module_impl.cpp`.

* The transport, the event subsystem and the worker pool are external collaborators. They are
  arguments of the embedded functions, and every call made on them is recorded in the value the
  function returns, so that "which RPC was issued, with which parameters, how often" is a
  statement about that value.
* `FireboltSDK::Accessor::Instance().GetTransport()` is the argument `transport`, `none` for a
  null pointer.
* The out-parameter `Firebolt::Error *err` is an `Option Error`: `none` for a null pointer,
  `some e` for a pointer to a variable currently holding `e`. The returned `err` is the content
  of that variable after the call.
* `std::optional<T>::value()` on an empty optional throws `std::bad_optional_access`; functions
  that can reach such a call return their outcome in `Except Exception`.
-/

namespace Firebolt

/-! ## External types -/

/-- Status codes of `Firebolt::Error`. The enumeration is declared outside this module; the two
codes the module names are constructors of their own and any further code is `Other`. -/
inductive Error where
  | None
  | NotConnected
  | Other (code : Int)
  deriving DecidableEq

/-- What `std::optional<T>::value()` throws on an empty optional. -/
inductive Exception where
  | bad_optional_access
  deriving DecidableEq

/-- The member function `std::optional<T>::value()`. -/
def value {α : Type} : Option α → Except Exception α
  | some a => Except.ok a
  | none => Except.error Exception.bad_optional_access

/-- A JSON document as the WPEFramework variant types hold it. `raw text` is the document
obtained by parsing `text`, for members whose C++ type is a string that already carries
serialised JSON (`EntityIntent::data`, `Images`, ...); the parser itself is outside the module. -/
inductive Json where
  | null
  | bool (b : Bool)
  | num (n : Int)
  | str (s : String)
  | raw (text : String)
  | arr (items : List Json)
  | obj (members : List (String × Json))

/-- Value of a `Core::JSON::Boolean` result holder: the boolean the transport wrote into it,
`false` (the default of the holder) when it wrote none. -/
def Json.boolValue : Json → Bool
  | Json.bool b => b
  | _ => false

/-- Member lookup in a JSON object, `none` on a missing key or on a non-object. -/
def Json.get? (key : String) : Json → Option Json
  | Json.obj ms => (ms.find? (fun kv => kv.1 == key)).map Prod.snd
  | _ => none

/-- Keys of a JSON object in document order, empty for a non-object. -/
def Json.keys : Json → List String
  | Json.obj ms => ms.map Prod.fst
  | _ => []

/-- Set one member of a key/value list: replace the value of an existing key, append a new key. -/
def setMember (key : String) (v : Json) : List (String × Json) → List (String × Json)
  | [] => [(key, v)]
  | (k, w) :: rest => if k = key then (key, v) :: rest else (k, w) :: setMember key v rest

/-- The parameter object `JsonObject` (a `Core::JSON::VariantContainer`). -/
structure JsonObject where
  members : List (String × Json)

/-- A default-constructed `JsonObject`. -/
def JsonObject.empty : JsonObject := ⟨[]⟩

/-- The call `jsonParameters.Set(key, variant)`. -/
def JsonObject.Set (o : JsonObject) (key : String) (v : Json) : JsonObject :=
  ⟨setMember key v o.members⟩

/-- Member lookup in a parameter object. -/
def JsonObject.get? (o : JsonObject) (key : String) : Option Json :=
  (Json.obj o.members).get? key

/-- Keys of a parameter object in insertion order. -/
def JsonObject.keys (o : JsonObject) : List String :=
  o.members.map Prod.fst

/-- Whether a parameter object has a member named `key`. -/
def JsonObject.contains (o : JsonObject) (key : String) : Bool :=
  o.keys.contains key

/-! ### Generated `JsonData_*` containers

A `JsonData_*` container is given by its members in the order the module assigns them, each
either set (`some`) or in the state of a default-constructed member (`none`). The container
classes themselves are declared outside the module; what is assumed of them is that a member
appears in the serialisation exactly when it is set, under the lower-camel-case name of the C++
member, and that set-ness is a matter of content, one rule for every kind of member:

* a leaf is set by the assignment of a C++ value;
* a nested container is set exactly when one of its members is
  (`Core::JSON::Container::IsSet`);
* an array member is set exactly when it has an element. The module never calls `Set(true)` on
  an array: its arrays are default-constructed, filled by one `Add()` per element and copied
  into the member, so an array without elements is a copy of a default-constructed array and
  leaves the member in the state it has when nothing is assigned to it. -/

/-- Members of a container that have been assigned. -/
def setMembers (fields : List (String × Option Json)) : List (String × Json) :=
  fields.filterMap (fun kv => kv.2.map (fun v => (kv.1, v)))

/-- The sequence `container.ToString(str); VariantContainer(str)` on a top-level container: an
object holding the assigned members, possibly none. -/
def toVariant (fields : List (String × Option Json)) : Json :=
  Json.obj (setMembers fields)

/-- A container nested in another one: serialised only if one of its members is set. -/
def nested (fields : List (String × Option Json)) : Option Json :=
  if (setMembers fields).isEmpty then none else some (Json.obj (setMembers fields))

/-- An `ArrayType` member after `member = array;`, where `array` was default-constructed and
filled by one `Add()` per item: set, and serialised as the array of the items, exactly when
there is an item. -/
def arrayMember (items : List Json) : Option Json :=
  if items.isEmpty then none else some (Json.arr items)

/-- Response of `Transport::Invoke`: the returned status and the content of the result holder
after the call. -/
structure Response where
  status : Error
  result : Json

/-- The transport `FireboltSDK::Transport`, external to the module: all the module does with it
is call `Invoke(method, parameters, result)`. -/
structure Transport where
  Invoke : String → JsonObject → Response

/-- One recorded call of `Transport::Invoke`. -/
structure Invocation where
  method : String
  parameters : JsonObject

/-- Jobs the module submits to `Core::IWorkerPool`. -/
inductive Job where
  | signInDispatcher
  | signOutDispatcher
  deriving DecidableEq

/-- Everything observable of one call of a request method: the `Invoke` calls made on the
transport, the jobs submitted to the worker pool, the content of `*err` afterwards and the
returned value (or the exception that ended the call). -/
structure Call (α : Type) where
  invoked : List Invocation
  submitted : List Job
  err : Option Error
  outcome : Except Exception α

/-- The statement `if (err != nullptr) { *err = status; }`. -/
def storeErr (err : Option Error) (status : Error) : Option Error :=
  err.map (fun _ => status)

/-! ## SDK data types

The C++ structs are declared in headers outside the module; their fields are the ones the module
reads, optional exactly where the module tests `has_value()` or calls `value()`. Enumerations
whose conversion table is outside the module are carried by their wire name, numbers by an
integer (they are copied unchanged). -/

/-- Wire name of an enumeration value. -/
abbrev EnumName := String

/-- A numeric field, copied unchanged by the marshalling code. -/
abbrev Number := Int

namespace Entertainment

/-- The struct `Entertainment::Entitlement`. -/
structure Entitlement where
  entitlementId : String
  startTime : Option String
  endTime : Option String

/-- The struct `Entertainment::ContentIdentifiers`. -/
structure ContentIdentifiers where
  assetId : Option String
  entityId : Option String
  seasonId : Option String
  seriesId : Option String
  appContentData : Option String

/-- The struct `Entertainment::ContentRating`. -/
structure ContentRating where
  scheme : EnumName
  rating : String
  advisories : Option (List String)

/-- The struct `Entertainment::WayToWatch`. -/
structure WayToWatch where
  identifiers : ContentIdentifiers
  expires : Option String
  entitled : Option Bool
  entitledExpires : Option String
  offeringType : Option EnumName
  hasAds : Option Bool
  price : Option Number
  videoQuality : Option (List EnumName)
  audioProfile : List EnumName
  audioLanguages : Option (List String)
  closedCaptions : Option (List String)
  subtitles : Option (List String)
  audioDescriptions : Option (List String)

/-- The struct `Entertainment::EntityInfo`. -/
structure EntityInfo where
  identifiers : ContentIdentifiers
  title : String
  entityType : EnumName
  programType : Option EnumName
  musicType : Option EnumName
  synopsis : Option String
  seasonNumber : Option Number
  seasonCount : Option Number
  episodeNumber : Option Number
  episodeCount : Option Number
  releaseDate : Option String
  contentRatings : Option (List ContentRating)
  waysToWatch : Option (List WayToWatch)

end Entertainment

namespace Entity

/-- The struct `Entity::Metadata`, type of `EntityDetails::info`. -/
structure Metadata where
  title : Option String
  synopsis : Option String
  seasonNumber : Option Number
  seasonCount : Option Number
  episodeNumber : Option Number
  episodeCount : Option Number
  releaseDate : Option String
  contentRatings : Option (List Entertainment.ContentRating)

/-- The struct `Entity::EntityDetails`; `identifiers` is a string holding serialised JSON. -/
structure EntityDetails where
  identifiers : String
  info : Option Metadata
  waysToWatch : Option (List Entertainment.WayToWatch)

end Entity

namespace Intents

/-- The `context` member of every intent. -/
structure IntentContext where
  source : String

/-- The struct `Intents::HomeIntent`. -/
structure HomeIntent where
  action : String
  context : IntentContext

/-- The struct `Intents::LaunchIntent`. -/
structure LaunchIntent where
  action : String
  context : IntentContext

/-- The struct `Intents::EntityIntent`; `data` is a string holding serialised JSON. -/
structure EntityIntent where
  action : String
  data : String
  context : IntentContext

/-- The struct `Intents::PlaybackIntent`; `data` is a string holding serialised JSON. -/
structure PlaybackIntent where
  action : String
  data : String
  context : IntentContext

/-- The struct `Intents::SearchIntentData`. -/
structure SearchIntentData where
  query : String

/-- The struct `Intents::SearchIntent`. -/
structure SearchIntent where
  action : String
  data : Option SearchIntentData
  context : IntentContext

/-- The struct `Intents::SectionIntentData`. -/
structure SectionIntentData where
  sectionName : String

/-- The struct `Intents::SectionIntent`. -/
structure SectionIntent where
  action : String
  data : SectionIntentData
  context : IntentContext

/-- The `entity` member of `Intents::TuneIntentData`. -/
structure ChannelEntity where
  entityType : String
  channelType : EnumName
  entityId : String
  appContentData : Option String

/-- The struct `Intents::TuneIntentDataOptions`. -/
structure TuneIntentDataOptions where
  assetId : Option String
  restartCurrentProgram : Option Bool
  time : Option String

/-- The struct `Intents::TuneIntentData`. -/
structure TuneIntentData where
  entity : ChannelEntity
  options : Option TuneIntentDataOptions

/-- The struct `Intents::TuneIntent`. -/
structure TuneIntent where
  action : String
  data : TuneIntentData
  context : IntentContext

/-- The struct `Intents::PlayEntityIntentDataOptions`. -/
structure PlayEntityIntentDataOptions where
  playFirstId : Option String
  playFirstTrack : Option Number

/-- The struct `Intents::PlayEntityIntentData`; `entity` is a string holding serialised JSON. -/
structure PlayEntityIntentData where
  entity : String
  options : Option PlayEntityIntentDataOptions

/-- The struct `Intents::PlayEntityIntent`. -/
structure PlayEntityIntent where
  action : String
  data : PlayEntityIntentData
  context : IntentContext

/-- The struct `Intents::PlayQueryIntentDataOptions`. -/
structure PlayQueryIntentDataOptions where
  programTypes : Option (List EnumName)
  musicTypes : Option (List EnumName)

/-- The struct `Intents::PlayQueryIntentData`. -/
structure PlayQueryIntentData where
  query : String
  options : Option PlayQueryIntentDataOptions

/-- The struct `Intents::PlayQueryIntent`. -/
structure PlayQueryIntent where
  action : String
  data : PlayQueryIntentData
  context : IntentContext

end Intents

namespace Discovery

/-- The enumeration `Discovery::AvailabilityType`. -/
inductive AvailabilityType where
  | CHANNEL_LINEUP
  | PROGRAM_LINEUP
  deriving DecidableEq

/-- The table `ENUM_CONVERSION_BEGIN(Firebolt::Discovery::AvailabilityType)`. -/
def AvailabilityType.wireName : AvailabilityType → String
  | AvailabilityType.CHANNEL_LINEUP => "channel-lineup"
  | AvailabilityType.PROGRAM_LINEUP => "program-lineup"

/-- The struct `Discovery::Availability`. -/
structure Availability where
  type : AvailabilityType
  id : String
  catalogId : Option String
  startTime : Option String
  endTime : Option String

/-- The struct `Discovery::ContentAccessIdentifiers`. -/
structure ContentAccessIdentifiers where
  availabilities : Option (List Availability)
  entitlements : Option (List Entertainment.Entitlement)

/-- The struct `Discovery::EntityInfoResult`. -/
structure EntityInfoResult where
  expires : String
  entity : Entertainment.EntityInfo
  related : Option (List Entertainment.EntityInfo)

/-- The struct `Discovery::PurchasedContentResult`. -/
structure PurchasedContentResult where
  expires : String
  totalCount : Number
  entries : List Entertainment.EntityInfo

/-- The struct `Discovery::EntityInfoParameters`. -/
structure EntityInfoParameters where
  entityId : String
  assetId : Option String

/-- The struct `Discovery::PurchasedContentParameters`. -/
structure PurchasedContentParameters where
  limit : Number
  offeringType : Option EnumName
  programType : Option EnumName

/-- `Images`, a string holding serialised JSON. -/
abbrev Images := String

end Discovery

namespace Discovery

open Entertainment Intents

/-! ## Marshalling blocks

The generated module inlines the same assignments wherever a struct of a given type is copied
into its `JsonData_*` container (an `EntityInfo` is marshalled by the same statements in
`entityInfo`, `purchasedContent` and the two pull callbacks). Each block is written once here,
as the list of members it assigns. -/

/-- Assignments into a `JsonData_Entitlement`. -/
def entitlementFields (element : Entitlement) : List (String × Option Json) :=
  [("entitlementId", some (Json.str element.entitlementId)),
   ("startTime", element.startTime.map Json.str),
   ("endTime", element.endTime.map Json.str)]

/-- Assignments into a `JsonData_Availability`. -/
def availabilityFields (element : Availability) : List (String × Option Json) :=
  [("type", some (Json.str element.type.wireName)),
   ("id", some (Json.str element.id)),
   ("catalogId", element.catalogId.map Json.str),
   ("startTime", element.startTime.map Json.str),
   ("endTime", element.endTime.map Json.str)]

/-- Assignments into a `JsonData_ContentIdentifiers`. -/
def contentIdentifiersFields (element : ContentIdentifiers) : List (String × Option Json) :=
  [("assetId", element.assetId.map Json.str),
   ("entityId", element.entityId.map Json.str),
   ("seasonId", element.seasonId.map Json.str),
   ("seriesId", element.seriesId.map Json.str),
   ("appContentData", element.appContentData.map Json.str)]

/-- The loop `for (auto& element : xs) { array.Add() = element; }` over strings or enumeration
values, followed by the assignment of the array to its member. -/
def stringArray (xs : List String) : Option Json :=
  arrayMember (xs.map Json.str)

/-- Assignments into a `JsonData_ContentRating`. -/
def contentRatingFields (element : ContentRating) : List (String × Option Json) :=
  [("scheme", some (Json.str element.scheme)),
   ("rating", some (Json.str element.rating)),
   ("advisories", element.advisories.bind stringArray)]

/-- Assignments into a `JsonData_WayToWatch`. -/
def wayToWatchFields (element : WayToWatch) : List (String × Option Json) :=
  [("identifiers", nested (contentIdentifiersFields element.identifiers)),
   ("expires", element.expires.map Json.str),
   ("entitled", element.entitled.map Json.bool),
   ("entitledExpires", element.entitledExpires.map Json.str),
   ("offeringType", element.offeringType.map Json.str),
   ("hasAds", element.hasAds.map Json.bool),
   ("price", element.price.map Json.num),
   ("videoQuality", element.videoQuality.bind stringArray),
   ("audioProfile", stringArray element.audioProfile),
   ("audioLanguages", element.audioLanguages.bind stringArray),
   ("closedCaptions", element.closedCaptions.bind stringArray),
   ("subtitles", element.subtitles.bind stringArray),
   ("audioDescriptions", element.audioDescriptions.bind stringArray)]

/-- The loop filling a `contentRatingsArray`, followed by the assignment of the array to its
member. -/
def contentRatingsArray (xs : List ContentRating) : Option Json :=
  arrayMember (xs.map (fun element => toVariant (contentRatingFields element)))

/-- The loop filling a `waysToWatchArray`, followed by the assignment of the array to its
member. -/
def waysToWatchArray (xs : List WayToWatch) : Option Json :=
  arrayMember (xs.map (fun element => toVariant (wayToWatchFields element)))

/-- Assignments into a `JsonData_EntityInfo`. -/
def entityInfoFields (element : EntityInfo) : List (String × Option Json) :=
  [("identifiers", nested (contentIdentifiersFields element.identifiers)),
   ("title", some (Json.str element.title)),
   ("entityType", some (Json.str element.entityType)),
   ("programType", element.programType.map Json.str),
   ("musicType", element.musicType.map Json.str),
   ("synopsis", element.synopsis.map Json.str),
   ("seasonNumber", element.seasonNumber.map Json.num),
   ("seasonCount", element.seasonCount.map Json.num),
   ("episodeNumber", element.episodeNumber.map Json.num),
   ("episodeCount", element.episodeCount.map Json.num),
   ("releaseDate", element.releaseDate.map Json.str),
   ("contentRatings", element.contentRatings.bind contentRatingsArray),
   ("waysToWatch", element.waysToWatch.bind waysToWatchArray)]

/-- The loop filling a `relatedArray` or an `entriesArray`, followed by the assignment of the
array to its member. -/
def entityInfoArray (xs : List EntityInfo) : Option Json :=
  arrayMember (xs.map (fun element => toVariant (entityInfoFields element)))

/-- Assignments into a `JsonData_EntityInfoResult`. -/
def entityInfoResultFields (element : EntityInfoResult) : List (String × Option Json) :=
  [("expires", some (Json.str element.expires)),
   ("entity", nested (entityInfoFields element.entity)),
   ("related", element.related.bind entityInfoArray)]

/-- Assignments into a `JsonData_PurchasedContentResult`. -/
def purchasedContentResultFields (element : PurchasedContentResult) :
    List (String × Option Json) :=
  [("expires", some (Json.str element.expires)),
   ("totalCount", some (Json.num element.totalCount)),
   ("entries", entityInfoArray element.entries)]

/-- Assignments into the `JsonData_ContentAccessIdentifiers` of `contentAccess`. -/
def contentAccessIdentifiersFields (element : ContentAccessIdentifiers) :
    List (String × Option Json) :=
  [("availabilities", element.availabilities.bind (fun availabilities =>
      arrayMember (availabilities.map (fun element => toVariant (availabilityFields element))))),
   ("entitlements", element.entitlements.bind (fun entitlements =>
      arrayMember (entitlements.map (fun element => toVariant (entitlementFields element)))))]

/-- The array of variants built by the loop of `entitlements` and of `signIn`. It is handed to
`Variant::Array` and set as a parameter of its own, not assigned to a container member, so it
is sent also when it has no element. -/
def entitlementsVariantArray (entitlements : List Entitlement) : Json :=
  Json.arr (entitlements.map (fun element => toVariant (entitlementFields element)))

/-! ## Request methods -/

/-- The static helper `ProviderInvokeSession`. -/
def ProviderInvokeSession (transport : Option Transport) (methodName : String)
    (jsonParameters : JsonObject) (err : Option Error) : Call Unit :=
  match transport with
  | some t =>
    let status := (t.Invoke methodName jsonParameters).status
    ⟨[⟨methodName, jsonParameters⟩], [], storeErr err status, Except.ok ()⟩
  | none => ⟨[], [], storeErr err Error.NotConnected, Except.ok ()⟩

/-- The method `DiscoveryImpl::clearContentAccess`. -/
def clearContentAccess (transport : Option Transport) (err : Option Error) : Call Unit :=
  match transport with
  | some t =>
    let jsonParameters := JsonObject.empty
    let statusError := (t.Invoke "discovery.clearContentAccess" jsonParameters).status
    ⟨[⟨"discovery.clearContentAccess", jsonParameters⟩], [], storeErr err statusError,
      Except.ok ()⟩
  | none => ⟨[], [], storeErr err Error.NotConnected, Except.ok ()⟩

/-- The method `DiscoveryImpl::contentAccess`. -/
def contentAccess (transport : Option Transport) (ids : ContentAccessIdentifiers)
    (err : Option Error) : Call Unit :=
  match transport with
  | some t =>
    let idsVariant := toVariant (contentAccessIdentifiersFields ids)
    let jsonParameters := JsonObject.empty.Set "ids" idsVariant
    let statusError := (t.Invoke "discovery.contentAccess" jsonParameters).status
    ⟨[⟨"discovery.contentAccess", jsonParameters⟩], [], storeErr err statusError, Except.ok ()⟩
  | none => ⟨[], [], storeErr err Error.NotConnected, Except.ok ()⟩

/-- The method `DiscoveryImpl::entitlements`. -/
def entitlements (transport : Option Transport) (entitlements : List Entitlement)
    (err : Option Error) : Call Bool :=
  match transport with
  | some t =>
    let entitlementsVariant := entitlementsVariantArray entitlements
    let jsonParameters := JsonObject.empty.Set "entitlements" entitlementsVariant
    let jsonResult := t.Invoke "discovery.entitlements" jsonParameters
    let success := if jsonResult.status = Error.None then jsonResult.result.boolValue else false
    ⟨[⟨"discovery.entitlements", jsonParameters⟩], [], storeErr err jsonResult.status,
      Except.ok success⟩
  | none => ⟨[], [], storeErr err Error.NotConnected, Except.ok false⟩

/-- The method `DiscoveryImpl::entityInfo`. -/
def entityInfo (transport : Option Transport) (result : EntityInfoResult)
    (err : Option Error) : Call Bool :=
  match transport with
  | some t =>
    let correlationId := ""
    let jsonParameters := JsonObject.empty.Set "correlationId" (Json.str correlationId)
    let resultVariant := toVariant (entityInfoResultFields result)
    let jsonParameters := jsonParameters.Set "result" resultVariant
    let jsonResult := t.Invoke "discovery.entityInfo" jsonParameters
    let success := if jsonResult.status = Error.None then jsonResult.result.boolValue else false
    ⟨[⟨"discovery.entityInfo", jsonParameters⟩], [], storeErr err jsonResult.status,
      Except.ok success⟩
  | none => ⟨[], [], storeErr err Error.NotConnected, Except.ok false⟩

/-- The method `DiscoveryImpl::purchasedContent`. -/
def purchasedContent (transport : Option Transport) (result : PurchasedContentResult)
    (err : Option Error) : Call Bool :=
  match transport with
  | some t =>
    let correlationId := ""
    let jsonParameters := JsonObject.empty.Set "correlationId" (Json.str correlationId)
    let resultVariant := toVariant (purchasedContentResultFields result)
    let jsonParameters := jsonParameters.Set "result" resultVariant
    let jsonResult := t.Invoke "discovery.purchasedContent" jsonParameters
    let success := if jsonResult.status = Error.None then jsonResult.result.boolValue else false
    ⟨[⟨"discovery.purchasedContent", jsonParameters⟩], [], storeErr err jsonResult.status,
      Except.ok success⟩
  | none => ⟨[], [], storeErr err Error.NotConnected, Except.ok false⟩

/-! ### The nine `launch` overloads -/

/-- The block `intentContainer.Context.Source = element.context.source;`. -/
def contextFields (context : IntentContext) : List (String × Option Json) :=
  [("source", some (Json.str context.source))]

/-- The overload `DiscoveryImpl::launch( appId, std::optional<Intents::HomeIntent> )`. -/
def launch_HomeIntent (transport : Option Transport) (appId : String)
    (intent : Option HomeIntent) (err : Option Error) : Call Bool :=
  match transport with
  | some t =>
    let jsonParameters := JsonObject.empty.Set "appId" (Json.str appId)
    let jsonParameters :=
      match intent with
      | some element =>
        jsonParameters.Set "intent" (toVariant
          [("action", some (Json.str element.action)),
           ("context", nested (contextFields element.context))])
      | none => jsonParameters
    let jsonResult := t.Invoke "discovery.launch" jsonParameters
    let success := if jsonResult.status = Error.None then jsonResult.result.boolValue else false
    ⟨[⟨"discovery.launch", jsonParameters⟩], [], storeErr err jsonResult.status,
      Except.ok success⟩
  | none => ⟨[], [], storeErr err Error.NotConnected, Except.ok false⟩

/-- The overload `DiscoveryImpl::launch( appId, std::optional<Intents::LaunchIntent> )`. -/
def launch_LaunchIntent (transport : Option Transport) (appId : String)
    (intent : Option LaunchIntent) (err : Option Error) : Call Bool :=
  match transport with
  | some t =>
    let jsonParameters := JsonObject.empty.Set "appId" (Json.str appId)
    let jsonParameters :=
      match intent with
      | some element =>
        jsonParameters.Set "intent" (toVariant
          [("action", some (Json.str element.action)),
           ("context", nested (contextFields element.context))])
      | none => jsonParameters
    let jsonResult := t.Invoke "discovery.launch" jsonParameters
    let success := if jsonResult.status = Error.None then jsonResult.result.boolValue else false
    ⟨[⟨"discovery.launch", jsonParameters⟩], [], storeErr err jsonResult.status,
      Except.ok success⟩
  | none => ⟨[], [], storeErr err Error.NotConnected, Except.ok false⟩

/-- The overload `DiscoveryImpl::launch( appId, std::optional<Intents::EntityIntent> )`. -/
def launch_EntityIntent (transport : Option Transport) (appId : String)
    (intent : Option EntityIntent) (err : Option Error) : Call Bool :=
  match transport with
  | some t =>
    let jsonParameters := JsonObject.empty.Set "appId" (Json.str appId)
    let jsonParameters :=
      match intent with
      | some element =>
        jsonParameters.Set "intent" (toVariant
          [("action", some (Json.str element.action)),
           ("data", some (Json.raw element.data)),
           ("context", nested (contextFields element.context))])
      | none => jsonParameters
    let jsonResult := t.Invoke "discovery.launch" jsonParameters
    let success := if jsonResult.status = Error.None then jsonResult.result.boolValue else false
    ⟨[⟨"discovery.launch", jsonParameters⟩], [], storeErr err jsonResult.status,
      Except.ok success⟩
  | none => ⟨[], [], storeErr err Error.NotConnected, Except.ok false⟩

/-- The overload `DiscoveryImpl::launch( appId, std::optional<Intents::PlaybackIntent> )`. -/
def launch_PlaybackIntent (transport : Option Transport) (appId : String)
    (intent : Option PlaybackIntent) (err : Option Error) : Call Bool :=
  match transport with
  | some t =>
    let jsonParameters := JsonObject.empty.Set "appId" (Json.str appId)
    let jsonParameters :=
      match intent with
      | some element =>
        jsonParameters.Set "intent" (toVariant
          [("action", some (Json.str element.action)),
           ("data", some (Json.raw element.data)),
           ("context", nested (contextFields element.context))])
      | none => jsonParameters
    let jsonResult := t.Invoke "discovery.launch" jsonParameters
    let success := if jsonResult.status = Error.None then jsonResult.result.boolValue else false
    ⟨[⟨"discovery.launch", jsonParameters⟩], [], storeErr err jsonResult.status,
      Except.ok success⟩
  | none => ⟨[], [], storeErr err Error.NotConnected, Except.ok false⟩

/-- The overload `DiscoveryImpl::launch( appId, std::optional<Intents::SearchIntent> )`. The
query is read through `element.data.value()`, with no `has_value()` test before it. -/
def launch_SearchIntent (transport : Option Transport) (appId : String)
    (intent : Option SearchIntent) (err : Option Error) : Call Bool :=
  match transport with
  | some t =>
    let jsonParameters := JsonObject.empty.Set "appId" (Json.str appId)
    let marshalled : Except Exception JsonObject :=
      match intent with
      | some element =>
        match value element.data with
        | Except.ok data =>
          Except.ok (jsonParameters.Set "intent" (toVariant
            [("action", some (Json.str element.action)),
             ("data", nested [("query", some (Json.str data.query))]),
             ("context", nested (contextFields element.context))]))
        | Except.error ex => Except.error ex
      | none => Except.ok jsonParameters
    match marshalled with
    | Except.ok jsonParameters =>
      let jsonResult := t.Invoke "discovery.launch" jsonParameters
      let success := if jsonResult.status = Error.None then jsonResult.result.boolValue else false
      ⟨[⟨"discovery.launch", jsonParameters⟩], [], storeErr err jsonResult.status,
        Except.ok success⟩
    | Except.error ex => ⟨[], [], err, Except.error ex⟩
  | none => ⟨[], [], storeErr err Error.NotConnected, Except.ok false⟩

/-- The overload `DiscoveryImpl::launch( appId, std::optional<Intents::SectionIntent> )`. -/
def launch_SectionIntent (transport : Option Transport) (appId : String)
    (intent : Option SectionIntent) (err : Option Error) : Call Bool :=
  match transport with
  | some t =>
    let jsonParameters := JsonObject.empty.Set "appId" (Json.str appId)
    let jsonParameters :=
      match intent with
      | some element =>
        jsonParameters.Set "intent" (toVariant
          [("action", some (Json.str element.action)),
           ("data", nested [("sectionName", some (Json.str element.data.sectionName))]),
           ("context", nested (contextFields element.context))])
      | none => jsonParameters
    let jsonResult := t.Invoke "discovery.launch" jsonParameters
    let success := if jsonResult.status = Error.None then jsonResult.result.boolValue else false
    ⟨[⟨"discovery.launch", jsonParameters⟩], [], storeErr err jsonResult.status,
      Except.ok success⟩
  | none => ⟨[], [], storeErr err Error.NotConnected, Except.ok false⟩

/-- The overload `DiscoveryImpl::launch( appId, std::optional<Intents::TuneIntent> )`. The
options are read through `element.data.options.value()`, with no `has_value()` test before. -/
def launch_TuneIntent (transport : Option Transport) (appId : String)
    (intent : Option TuneIntent) (err : Option Error) : Call Bool :=
  match transport with
  | some t =>
    let jsonParameters := JsonObject.empty.Set "appId" (Json.str appId)
    let marshalled : Except Exception JsonObject :=
      match intent with
      | some element =>
        match value element.data.options with
        | Except.ok options =>
          Except.ok (jsonParameters.Set "intent" (toVariant
            [("action", some (Json.str element.action)),
             ("data", nested
               [("entity", nested
                  [("entityType", some (Json.str element.data.entity.entityType)),
                   ("channelType", some (Json.str element.data.entity.channelType)),
                   ("entityId", some (Json.str element.data.entity.entityId)),
                   ("appContentData", element.data.entity.appContentData.map Json.str)]),
                ("options", nested
                  [("assetId", options.assetId.map Json.str),
                   ("restartCurrentProgram", options.restartCurrentProgram.map Json.bool),
                   ("time", options.time.map Json.str)])]),
             ("context", nested (contextFields element.context))]))
        | Except.error ex => Except.error ex
      | none => Except.ok jsonParameters
    match marshalled with
    | Except.ok jsonParameters =>
      let jsonResult := t.Invoke "discovery.launch" jsonParameters
      let success := if jsonResult.status = Error.None then jsonResult.result.boolValue else false
      ⟨[⟨"discovery.launch", jsonParameters⟩], [], storeErr err jsonResult.status,
        Except.ok success⟩
    | Except.error ex => ⟨[], [], err, Except.error ex⟩
  | none => ⟨[], [], storeErr err Error.NotConnected, Except.ok false⟩

/-- The overload `DiscoveryImpl::launch( appId, std::optional<Intents::PlayEntityIntent> )`. The
options are read through `element.data.options.value()`, with no `has_value()` test before. -/
def launch_PlayEntityIntent (transport : Option Transport) (appId : String)
    (intent : Option PlayEntityIntent) (err : Option Error) : Call Bool :=
  match transport with
  | some t =>
    let jsonParameters := JsonObject.empty.Set "appId" (Json.str appId)
    let marshalled : Except Exception JsonObject :=
      match intent with
      | some element =>
        match value element.data.options with
        | Except.ok options =>
          Except.ok (jsonParameters.Set "intent" (toVariant
            [("action", some (Json.str element.action)),
             ("data", nested
               [("entity", some (Json.raw element.data.entity)),
                ("options", nested
                  [("playFirstId", options.playFirstId.map Json.str),
                   ("playFirstTrack", options.playFirstTrack.map Json.num)])]),
             ("context", nested (contextFields element.context))]))
        | Except.error ex => Except.error ex
      | none => Except.ok jsonParameters
    match marshalled with
    | Except.ok jsonParameters =>
      let jsonResult := t.Invoke "discovery.launch" jsonParameters
      let success := if jsonResult.status = Error.None then jsonResult.result.boolValue else false
      ⟨[⟨"discovery.launch", jsonParameters⟩], [], storeErr err jsonResult.status,
        Except.ok success⟩
    | Except.error ex => ⟨[], [], err, Except.error ex⟩
  | none => ⟨[], [], storeErr err Error.NotConnected, Except.ok false⟩

/-- The overload `DiscoveryImpl::launch( appId, std::optional<Intents::PlayQueryIntent> )`. The
options are read through `element.data.options.value()`, with no `has_value()` test before. -/
def launch_PlayQueryIntent (transport : Option Transport) (appId : String)
    (intent : Option PlayQueryIntent) (err : Option Error) : Call Bool :=
  match transport with
  | some t =>
    let jsonParameters := JsonObject.empty.Set "appId" (Json.str appId)
    let marshalled : Except Exception JsonObject :=
      match intent with
      | some element =>
        match value element.data.options with
        | Except.ok options =>
          Except.ok (jsonParameters.Set "intent" (toVariant
            [("action", some (Json.str element.action)),
             ("data", nested
               [("query", some (Json.str element.data.query)),
                ("options", nested
                  [("programTypes", options.programTypes.bind stringArray),
                   ("musicTypes", options.musicTypes.bind stringArray)])]),
             ("context", nested (contextFields element.context))]))
        | Except.error ex => Except.error ex
      | none => Except.ok jsonParameters
    match marshalled with
    | Except.ok jsonParameters =>
      let jsonResult := t.Invoke "discovery.launch" jsonParameters
      let success := if jsonResult.status = Error.None then jsonResult.result.boolValue else false
      ⟨[⟨"discovery.launch", jsonParameters⟩], [], storeErr err jsonResult.status,
        Except.ok success⟩
    | Except.error ex => ⟨[], [], err, Except.error ex⟩
  | none => ⟨[], [], storeErr err Error.NotConnected, Except.ok false⟩

/-! ### Sign-in state, user interest, watch next -/

/-- The method `DiscoveryImpl::signIn`. It has no statement storing into `*err`. -/
def signIn (transport : Option Transport) (entitlements : Option (List Entitlement))
    (err : Option Error) : Call Bool :=
  match transport with
  | some t =>
    let entitlementsArray :=
      match entitlements with
      | some xs => xs
      | none => []
    let jsonParameters :=
      JsonObject.empty.Set "entitlements" (entitlementsVariantArray entitlementsArray)
    let jsonResult := t.Invoke "discovery.signIn" jsonParameters
    if jsonResult.status = Error.None then
      ⟨[⟨"discovery.signIn", jsonParameters⟩], [Job.signInDispatcher], err,
        Except.ok jsonResult.result.boolValue⟩
    else
      ⟨[⟨"discovery.signIn", jsonParameters⟩], [], err, Except.ok false⟩
  | none => ⟨[], [], err, Except.ok false⟩

/-- The method `DiscoveryImpl::signOut`. It has no statement storing into `*err`. -/
def signOut (transport : Option Transport) (err : Option Error) : Call Bool :=
  match transport with
  | some t =>
    let jsonParameters := JsonObject.empty
    let jsonResult := t.Invoke "discovery.signOut" jsonParameters
    if jsonResult.status = Error.None then
      ⟨[⟨"discovery.signOut", jsonParameters⟩], [Job.signOutDispatcher], err,
        Except.ok jsonResult.result.boolValue⟩
    else
      ⟨[⟨"discovery.signOut", jsonParameters⟩], [], err, Except.ok false⟩
  | none => ⟨[], [], err, Except.ok false⟩

/-- Assignments into `entityContainer.Info` in `userInterest`. -/
def metadataFields (info : Entity.Metadata) : List (String × Option Json) :=
  [("title", info.title.map Json.str),
   ("synopsis", info.synopsis.map Json.str),
   ("seasonNumber", info.seasonNumber.map Json.num),
   ("seasonCount", info.seasonCount.map Json.num),
   ("episodeNumber", info.episodeNumber.map Json.num),
   ("episodeCount", info.episodeCount.map Json.num),
   ("releaseDate", info.releaseDate.map Json.str),
   ("contentRatings", info.contentRatings.bind contentRatingsArray)]

/-- The method `DiscoveryImpl::userInterest`. The metadata is read through
`element.info.value()`, with no `has_value()` test before it. -/
def userInterest (transport : Option Transport) (type : EnumName) (reason : EnumName)
    (entity : Entity.EntityDetails) (err : Option Error) : Call Unit :=
  match transport with
  | some t =>
    let jsonParameters := JsonObject.empty.Set "type" (Json.str type)
    let jsonParameters := jsonParameters.Set "reason" (Json.str reason)
    match value entity.info with
    | Except.ok info =>
      let entityVariant := toVariant
        [("identifiers", some (Json.raw entity.identifiers)),
         ("info", nested (metadataFields info)),
         ("waysToWatch", entity.waysToWatch.bind waysToWatchArray)]
      let jsonParameters := jsonParameters.Set "entity" entityVariant
      let statusError := (t.Invoke "discovery.userInterest" jsonParameters).status
      ⟨[⟨"discovery.userInterest", jsonParameters⟩], [], storeErr err statusError,
        Except.ok ()⟩
    | Except.error ex => ⟨[], [], err, Except.error ex⟩
  | none => ⟨[], [], storeErr err Error.NotConnected, Except.ok ()⟩

/-- The method `DiscoveryImpl::watchNext`. -/
def watchNext (transport : Option Transport) (title : String)
    (identifiers : ContentIdentifiers) (expires : Option String) (images : Option Images)
    (err : Option Error) : Call Bool :=
  match transport with
  | some t =>
    let jsonParameters := JsonObject.empty.Set "title" (Json.str title)
    let identifiersVariant := toVariant (contentIdentifiersFields identifiers)
    let jsonParameters := jsonParameters.Set "identifiers" identifiersVariant
    let jsonParameters :=
      match expires with
      | some e => jsonParameters.Set "expires" (Json.str e)
      | none => jsonParameters
    let jsonParameters :=
      match images with
      | some i => jsonParameters.Set "images" (Json.raw i)
      | none => jsonParameters
    let jsonResult := t.Invoke "discovery.watchNext" jsonParameters
    let success := if jsonResult.status = Error.None then jsonResult.result.boolValue else false
    ⟨[⟨"discovery.watchNext", jsonParameters⟩], [], storeErr err jsonResult.status,
      Except.ok success⟩
  | none => ⟨[], [], storeErr err Error.NotConnected, Except.ok false⟩

/-! ## Event subscriptions

`FireboltSDK::Event` is external. A subscription hands it the response type (the template
argument), the wire event name, a parameter object, the inner callback, the address of the
listener and a user-data pointer; an unsubscription hands it the event name and the address. -/

/-- Address of a listener object, `reinterpret_cast<void*>(&notification)`. -/
abbrev Address := Nat

/-- The static inner callbacks of the module. -/
inductive InnerCallback where
  | onNavigateToEntityIntentInnerCallback
  | onNavigateToHomeIntentInnerCallback
  | onNavigateToLaunchIntentInnerCallback
  | onNavigateToPlaybackIntentInnerCallback
  | onNavigateToPlayEntityIntentInnerCallback
  | onNavigateToPlayQueryIntentInnerCallback
  | onNavigateToSearchIntentInnerCallback
  | onNavigateToSectionIntentInnerCallback
  | onNavigateToTuneIntentInnerCallback
  | onPolicyChangedInnerCallback
  | onPullEntityInfoInnerCallback
  | onPullPurchasedContentInnerCallback
  | DiscoveryUserInterestSessionInnerCallback
  deriving DecidableEq

/-- The JSON response types the module instantiates `Event::Subscribe` with. -/
inductive ResponseType where
  | JsonData_EntityIntent
  | JsonData_HomeIntent
  | JsonData_LaunchIntent
  | JsonData_PlaybackIntent
  | JsonData_PlayEntityIntent
  | JsonData_PlayQueryIntent
  | JsonData_SearchIntent
  | JsonData_SectionIntent
  | JsonData_TuneIntent
  | JsonData_DiscoveryPolicy
  | JsonData_EntityInfoFederatedRequest
  | JsonData_PurchasedContentFederatedRequest
  | JsonData_Request
  deriving DecidableEq

/-- The event subsystem `FireboltSDK::Event`: the statuses its two entry points return. -/
structure Event where
  Subscribe : ResponseType → String → JsonObject → InnerCallback → Address → Option Address →
    Error
  Unsubscribe : String → Address → Error

/-- One recorded call of `Event::Subscribe`. -/
structure Subscribed where
  responseType : ResponseType
  eventName : String
  parameters : JsonObject
  callback : InnerCallback
  listener : Address
  userdata : Option Address

/-- One recorded call of `Event::Unsubscribe`. -/
structure Unsubscribed where
  eventName : String
  listener : Address
  deriving DecidableEq

/-- Everything observable of one call of a subscribe or unsubscribe overload. -/
structure EventCall where
  subscribed : List Subscribed
  unsubscribed : List Unsubscribed
  err : Option Error

/-- The overload `DiscoveryImpl::subscribe( IDiscovery::IOnNavigateToEntityIntentNotification& )`. -/
def subscribe_OnNavigateToEntityIntent (event : Event) (notification : Address) (err : Option Error) :
    EventCall :=
  let eventName := "discovery.onNavigateTo"
  let jsonParameters := JsonObject.empty
  let status := event.Subscribe ResponseType.JsonData_EntityIntent eventName jsonParameters
    InnerCallback.onNavigateToEntityIntentInnerCallback notification none
  ⟨[⟨ResponseType.JsonData_EntityIntent, eventName, jsonParameters, InnerCallback.onNavigateToEntityIntentInnerCallback, notification, none⟩], [],
    storeErr err status⟩

/-- The overload `DiscoveryImpl::unsubscribe( IDiscovery::IOnNavigateToEntityIntentNotification& )`. -/
def unsubscribe_OnNavigateToEntityIntent (event : Event) (notification : Address) (err : Option Error) :
    EventCall :=
  let status := event.Unsubscribe "discovery.onNavigateTo" notification
  ⟨[], [⟨"discovery.onNavigateTo", notification⟩], storeErr err status⟩

/-- The overload `DiscoveryImpl::subscribe( IDiscovery::IOnNavigateToHomeIntentNotification& )`. -/
def subscribe_OnNavigateToHomeIntent (event : Event) (notification : Address) (err : Option Error) :
    EventCall :=
  let eventName := "discovery.onNavigateTo"
  let jsonParameters := JsonObject.empty
  let status := event.Subscribe ResponseType.JsonData_HomeIntent eventName jsonParameters
    InnerCallback.onNavigateToHomeIntentInnerCallback notification none
  ⟨[⟨ResponseType.JsonData_HomeIntent, eventName, jsonParameters, InnerCallback.onNavigateToHomeIntentInnerCallback, notification, none⟩], [],
    storeErr err status⟩

/-- The overload `DiscoveryImpl::unsubscribe( IDiscovery::IOnNavigateToHomeIntentNotification& )`. -/
def unsubscribe_OnNavigateToHomeIntent (event : Event) (notification : Address) (err : Option Error) :
    EventCall :=
  let status := event.Unsubscribe "discovery.onNavigateTo" notification
  ⟨[], [⟨"discovery.onNavigateTo", notification⟩], storeErr err status⟩

/-- The overload `DiscoveryImpl::subscribe( IDiscovery::IOnNavigateToLaunchIntentNotification& )`. -/
def subscribe_OnNavigateToLaunchIntent (event : Event) (notification : Address) (err : Option Error) :
    EventCall :=
  let eventName := "discovery.onNavigateTo"
  let jsonParameters := JsonObject.empty
  let status := event.Subscribe ResponseType.JsonData_LaunchIntent eventName jsonParameters
    InnerCallback.onNavigateToLaunchIntentInnerCallback notification none
  ⟨[⟨ResponseType.JsonData_LaunchIntent, eventName, jsonParameters, InnerCallback.onNavigateToLaunchIntentInnerCallback, notification, none⟩], [],
    storeErr err status⟩

/-- The overload `DiscoveryImpl::unsubscribe( IDiscovery::IOnNavigateToLaunchIntentNotification& )`. -/
def unsubscribe_OnNavigateToLaunchIntent (event : Event) (notification : Address) (err : Option Error) :
    EventCall :=
  let status := event.Unsubscribe "discovery.onNavigateTo" notification
  ⟨[], [⟨"discovery.onNavigateTo", notification⟩], storeErr err status⟩

/-- The overload `DiscoveryImpl::subscribe( IDiscovery::IOnNavigateToPlaybackIntentNotification& )`. -/
def subscribe_OnNavigateToPlaybackIntent (event : Event) (notification : Address) (err : Option Error) :
    EventCall :=
  let eventName := "discovery.onNavigateTo"
  let jsonParameters := JsonObject.empty
  let status := event.Subscribe ResponseType.JsonData_PlaybackIntent eventName jsonParameters
    InnerCallback.onNavigateToPlaybackIntentInnerCallback notification none
  ⟨[⟨ResponseType.JsonData_PlaybackIntent, eventName, jsonParameters, InnerCallback.onNavigateToPlaybackIntentInnerCallback, notification, none⟩], [],
    storeErr err status⟩

/-- The overload `DiscoveryImpl::unsubscribe( IDiscovery::IOnNavigateToPlaybackIntentNotification& )`. -/
def unsubscribe_OnNavigateToPlaybackIntent (event : Event) (notification : Address) (err : Option Error) :
    EventCall :=
  let status := event.Unsubscribe "discovery.onNavigateTo" notification
  ⟨[], [⟨"discovery.onNavigateTo", notification⟩], storeErr err status⟩

/-- The overload `DiscoveryImpl::subscribe( IDiscovery::IOnNavigateToPlayEntityIntentNotification& )`. -/
def subscribe_OnNavigateToPlayEntityIntent (event : Event) (notification : Address) (err : Option Error) :
    EventCall :=
  let eventName := "discovery.onNavigateTo"
  let jsonParameters := JsonObject.empty
  let status := event.Subscribe ResponseType.JsonData_PlayEntityIntent eventName jsonParameters
    InnerCallback.onNavigateToPlayEntityIntentInnerCallback notification none
  ⟨[⟨ResponseType.JsonData_PlayEntityIntent, eventName, jsonParameters, InnerCallback.onNavigateToPlayEntityIntentInnerCallback, notification, none⟩], [],
    storeErr err status⟩

/-- The overload `DiscoveryImpl::unsubscribe( IDiscovery::IOnNavigateToPlayEntityIntentNotification& )`. -/
def unsubscribe_OnNavigateToPlayEntityIntent (event : Event) (notification : Address) (err : Option Error) :
    EventCall :=
  let status := event.Unsubscribe "discovery.onNavigateTo" notification
  ⟨[], [⟨"discovery.onNavigateTo", notification⟩], storeErr err status⟩

/-- The overload `DiscoveryImpl::subscribe( IDiscovery::IOnNavigateToPlayQueryIntentNotification& )`. -/
def subscribe_OnNavigateToPlayQueryIntent (event : Event) (notification : Address) (err : Option Error) :
    EventCall :=
  let eventName := "discovery.onNavigateTo"
  let jsonParameters := JsonObject.empty
  let status := event.Subscribe ResponseType.JsonData_PlayQueryIntent eventName jsonParameters
    InnerCallback.onNavigateToPlayQueryIntentInnerCallback notification none
  ⟨[⟨ResponseType.JsonData_PlayQueryIntent, eventName, jsonParameters, InnerCallback.onNavigateToPlayQueryIntentInnerCallback, notification, none⟩], [],
    storeErr err status⟩

/-- The overload `DiscoveryImpl::unsubscribe( IDiscovery::IOnNavigateToPlayQueryIntentNotification& )`. -/
def unsubscribe_OnNavigateToPlayQueryIntent (event : Event) (notification : Address) (err : Option Error) :
    EventCall :=
  let status := event.Unsubscribe "discovery.onNavigateTo" notification
  ⟨[], [⟨"discovery.onNavigateTo", notification⟩], storeErr err status⟩

/-- The overload `DiscoveryImpl::subscribe( IDiscovery::IOnNavigateToSearchIntentNotification& )`. -/
def subscribe_OnNavigateToSearchIntent (event : Event) (notification : Address) (err : Option Error) :
    EventCall :=
  let eventName := "discovery.onNavigateTo"
  let jsonParameters := JsonObject.empty
  let status := event.Subscribe ResponseType.JsonData_SearchIntent eventName jsonParameters
    InnerCallback.onNavigateToSearchIntentInnerCallback notification none
  ⟨[⟨ResponseType.JsonData_SearchIntent, eventName, jsonParameters, InnerCallback.onNavigateToSearchIntentInnerCallback, notification, none⟩], [],
    storeErr err status⟩

/-- The overload `DiscoveryImpl::unsubscribe( IDiscovery::IOnNavigateToSearchIntentNotification& )`. -/
def unsubscribe_OnNavigateToSearchIntent (event : Event) (notification : Address) (err : Option Error) :
    EventCall :=
  let status := event.Unsubscribe "discovery.onNavigateTo" notification
  ⟨[], [⟨"discovery.onNavigateTo", notification⟩], storeErr err status⟩

/-- The overload `DiscoveryImpl::subscribe( IDiscovery::IOnNavigateToSectionIntentNotification& )`. -/
def subscribe_OnNavigateToSectionIntent (event : Event) (notification : Address) (err : Option Error) :
    EventCall :=
  let eventName := "discovery.onNavigateTo"
  let jsonParameters := JsonObject.empty
  let status := event.Subscribe ResponseType.JsonData_SectionIntent eventName jsonParameters
    InnerCallback.onNavigateToSectionIntentInnerCallback notification none
  ⟨[⟨ResponseType.JsonData_SectionIntent, eventName, jsonParameters, InnerCallback.onNavigateToSectionIntentInnerCallback, notification, none⟩], [],
    storeErr err status⟩

/-- The overload `DiscoveryImpl::unsubscribe( IDiscovery::IOnNavigateToSectionIntentNotification& )`. -/
def unsubscribe_OnNavigateToSectionIntent (event : Event) (notification : Address) (err : Option Error) :
    EventCall :=
  let status := event.Unsubscribe "discovery.onNavigateTo" notification
  ⟨[], [⟨"discovery.onNavigateTo", notification⟩], storeErr err status⟩

/-- The overload `DiscoveryImpl::subscribe( IDiscovery::IOnNavigateToTuneIntentNotification& )`. -/
def subscribe_OnNavigateToTuneIntent (event : Event) (notification : Address) (err : Option Error) :
    EventCall :=
  let eventName := "discovery.onNavigateTo"
  let jsonParameters := JsonObject.empty
  let status := event.Subscribe ResponseType.JsonData_TuneIntent eventName jsonParameters
    InnerCallback.onNavigateToTuneIntentInnerCallback notification none
  ⟨[⟨ResponseType.JsonData_TuneIntent, eventName, jsonParameters, InnerCallback.onNavigateToTuneIntentInnerCallback, notification, none⟩], [],
    storeErr err status⟩

/-- The overload `DiscoveryImpl::unsubscribe( IDiscovery::IOnNavigateToTuneIntentNotification& )`. -/
def unsubscribe_OnNavigateToTuneIntent (event : Event) (notification : Address) (err : Option Error) :
    EventCall :=
  let status := event.Unsubscribe "discovery.onNavigateTo" notification
  ⟨[], [⟨"discovery.onNavigateTo", notification⟩], storeErr err status⟩

/-- The overload `DiscoveryImpl::subscribe( IDiscovery::IOnPolicyChangedNotification& )`. -/
def subscribe_OnPolicyChanged (event : Event) (notification : Address) (err : Option Error) :
    EventCall :=
  let eventName := "discovery.onPolicyChanged"
  let jsonParameters := JsonObject.empty
  let status := event.Subscribe ResponseType.JsonData_DiscoveryPolicy eventName jsonParameters
    InnerCallback.onPolicyChangedInnerCallback notification none
  ⟨[⟨ResponseType.JsonData_DiscoveryPolicy, eventName, jsonParameters, InnerCallback.onPolicyChangedInnerCallback, notification, none⟩], [],
    storeErr err status⟩

/-- The overload `DiscoveryImpl::unsubscribe( IDiscovery::IOnPolicyChangedNotification& )`. -/
def unsubscribe_OnPolicyChanged (event : Event) (notification : Address) (err : Option Error) :
    EventCall :=
  let status := event.Unsubscribe "discovery.onPolicyChanged" notification
  ⟨[], [⟨"discovery.onPolicyChanged", notification⟩], storeErr err status⟩

/-- The overload `DiscoveryImpl::subscribe( IDiscovery::IOnPullEntityInfoNotification& )`. -/
def subscribe_OnPullEntityInfo (event : Event) (notification : Address) (err : Option Error) :
    EventCall :=
  let eventName := "discovery.onPullEntityInfo"
  let jsonParameters := JsonObject.empty
  let status := event.Subscribe ResponseType.JsonData_EntityInfoFederatedRequest eventName jsonParameters
    InnerCallback.onPullEntityInfoInnerCallback notification none
  ⟨[⟨ResponseType.JsonData_EntityInfoFederatedRequest, eventName, jsonParameters, InnerCallback.onPullEntityInfoInnerCallback, notification, none⟩], [],
    storeErr err status⟩

/-- The overload `DiscoveryImpl::unsubscribe( IDiscovery::IOnPullEntityInfoNotification& )`. -/
def unsubscribe_OnPullEntityInfo (event : Event) (notification : Address) (err : Option Error) :
    EventCall :=
  let status := event.Unsubscribe "discovery.onPullEntityInfo" notification
  ⟨[], [⟨"discovery.onPullEntityInfo", notification⟩], storeErr err status⟩

/-- The overload `DiscoveryImpl::subscribe( IDiscovery::IOnPullPurchasedContentNotification& )`. -/
def subscribe_OnPullPurchasedContent (event : Event) (notification : Address) (err : Option Error) :
    EventCall :=
  let eventName := "discovery.onPullPurchasedContent"
  let jsonParameters := JsonObject.empty
  let status := event.Subscribe ResponseType.JsonData_PurchasedContentFederatedRequest eventName jsonParameters
    InnerCallback.onPullPurchasedContentInnerCallback notification none
  ⟨[⟨ResponseType.JsonData_PurchasedContentFederatedRequest, eventName, jsonParameters, InnerCallback.onPullPurchasedContentInnerCallback, notification, none⟩], [],
    storeErr err status⟩

/-- The overload `DiscoveryImpl::unsubscribe( IDiscovery::IOnPullPurchasedContentNotification& )`. -/
def unsubscribe_OnPullPurchasedContent (event : Event) (notification : Address) (err : Option Error) :
    EventCall :=
  let status := event.Unsubscribe "discovery.onPullPurchasedContent" notification
  ⟨[], [⟨"discovery.onPullPurchasedContent", notification⟩], storeErr err status⟩

/-! ## Pull callbacks -/

/-- A leaf of a received `JsonData_*` container, observed through `IsSet()` and `Value()`. -/
structure JsonLeaf (α : Type) where
  IsSet : Bool
  Value : α

/-- The container `JsonData_EntityInfoParameters`. -/
structure JsonData_EntityInfoParameters where
  EntityId : JsonLeaf String
  AssetId : JsonLeaf String

/-- The container `JsonData_EntityInfoFederatedRequest`. -/
structure JsonData_EntityInfoFederatedRequest where
  CorrelationId : JsonLeaf String
  Parameters : JsonData_EntityInfoParameters

/-- The container `JsonData_PurchasedContentParameters`. -/
structure JsonData_PurchasedContentParameters where
  Limit : JsonLeaf Number
  OfferingType : JsonLeaf EnumName
  ProgramType : JsonLeaf EnumName

/-- The container `JsonData_PurchasedContentFederatedRequest`. -/
structure JsonData_PurchasedContentFederatedRequest where
  CorrelationId : JsonLeaf String
  Parameters : JsonData_PurchasedContentParameters

/-- One step of a pull callback, in execution order: a call of the listener with the given
parameters, or a call of `Transport::Invoke`. -/
inductive PullStep (P : Type) where
  | notified (parameters : P)
  | invoked (invocation : Invocation)

/-- The statement `if (leaf.IsSet()) { field = leaf.Value(); }` on a default-constructed optional
field. -/
def optionalOf {α : Type} (leaf : JsonLeaf α) : Option α :=
  if leaf.IsSet then some leaf.Value else none

/-- The static function `onPullEntityInfoInnerCallback`. `jsonResponse` is `none` for a proxy
that is not valid; `notifier` is the listener method `onPullEntityInfo`. -/
def onPullEntityInfoInnerCallback (transport : Option Transport)
    (notifier : EntityInfoParameters → EntityInfoResult)
    (jsonResponse : Option JsonData_EntityInfoFederatedRequest) :
    List (PullStep EntityInfoParameters) :=
  match jsonResponse with
  | some proxyResponse =>
    let jsonResult := proxyResponse.Parameters
    let entityInfoParameters : EntityInfoParameters :=
      ⟨jsonResult.EntityId.Value, optionalOf jsonResult.AssetId⟩
    let element := notifier entityInfoParameters
    match transport with
    | some _ =>
      let jsonParameters :=
        JsonObject.empty.Set "correlationId" (Json.str proxyResponse.CorrelationId.Value)
      let Result := toVariant (entityInfoResultFields element)
      let jsonParameters := jsonParameters.Set "result" Result
      [PullStep.notified entityInfoParameters,
       PullStep.invoked ⟨"discovery.entityInfo", jsonParameters⟩]
    | none => [PullStep.notified entityInfoParameters]
  | none => []

/-- The static function `onPullPurchasedContentInnerCallback`. `jsonResponse` is `none` for a
proxy that is not valid; `notifier` is the listener method `onPullPurchasedContent`. -/
def onPullPurchasedContentInnerCallback (transport : Option Transport)
    (notifier : PurchasedContentParameters → PurchasedContentResult)
    (jsonResponse : Option JsonData_PurchasedContentFederatedRequest) :
    List (PullStep PurchasedContentParameters) :=
  match jsonResponse with
  | some proxyResponse =>
    let jsonResult := proxyResponse.Parameters
    let purchasedContentParameters : PurchasedContentParameters :=
      ⟨jsonResult.Limit.Value, optionalOf jsonResult.OfferingType,
        optionalOf jsonResult.ProgramType⟩
    let element := notifier purchasedContentParameters
    match transport with
    | some _ =>
      let jsonParameters :=
        JsonObject.empty.Set "correlationId" (Json.str proxyResponse.CorrelationId.Value)
      let Result := toVariant (purchasedContentResultFields element)
      let jsonParameters := jsonParameters.Set "result" Result
      [PullStep.notified purchasedContentParameters,
       PullStep.invoked ⟨"discovery.purchasedContent", jsonParameters⟩]
    | none => [PullStep.notified purchasedContentParameters]
  | none => []

/-! ## The request interface as a whole

To speak of "every request method", the calls of the interface are collected in one type and
dispatched to the functions above. -/

/-- What a request method returns: nothing, or a boolean. -/
inductive Returned where
  | void
  | bool (b : Bool)
  deriving DecidableEq

/-- View of a call of a `void` method. -/
def asVoid (c : Call Unit) : Call Returned :=
  ⟨c.invoked, c.submitted, c.err, c.outcome.map (fun _ => Returned.void)⟩

/-- View of a call of a `bool` method. -/
def asBool (c : Call Bool) : Call Returned :=
  ⟨c.invoked, c.submitted, c.err, c.outcome.map Returned.bool⟩

/-- A call of one of the nine `launch` overloads, with its arguments. -/
inductive Launch where
  | HomeIntent (appId : String) (intent : Option Intents.HomeIntent)
  | LaunchIntent (appId : String) (intent : Option Intents.LaunchIntent)
  | EntityIntent (appId : String) (intent : Option Intents.EntityIntent)
  | PlaybackIntent (appId : String) (intent : Option Intents.PlaybackIntent)
  | SearchIntent (appId : String) (intent : Option Intents.SearchIntent)
  | SectionIntent (appId : String) (intent : Option Intents.SectionIntent)
  | TuneIntent (appId : String) (intent : Option Intents.TuneIntent)
  | PlayEntityIntent (appId : String) (intent : Option Intents.PlayEntityIntent)
  | PlayQueryIntent (appId : String) (intent : Option Intents.PlayQueryIntent)

/-- The `appId` argument of a `launch` call. -/
def Launch.appId : Launch → String
  | Launch.HomeIntent a _ => a
  | Launch.LaunchIntent a _ => a
  | Launch.EntityIntent a _ => a
  | Launch.PlaybackIntent a _ => a
  | Launch.SearchIntent a _ => a
  | Launch.SectionIntent a _ => a
  | Launch.TuneIntent a _ => a
  | Launch.PlayEntityIntent a _ => a
  | Launch.PlayQueryIntent a _ => a

/-- Whether the `intent` argument of a `launch` call has a value. -/
def Launch.hasIntent : Launch → Bool
  | Launch.HomeIntent _ i => i.isSome
  | Launch.LaunchIntent _ i => i.isSome
  | Launch.EntityIntent _ i => i.isSome
  | Launch.PlaybackIntent _ i => i.isSome
  | Launch.SearchIntent _ i => i.isSome
  | Launch.SectionIntent _ i => i.isSome
  | Launch.TuneIntent _ i => i.isSome
  | Launch.PlayEntityIntent _ i => i.isSome
  | Launch.PlayQueryIntent _ i => i.isSome

/-- Overload resolution of `launch`. -/
def launch (transport : Option Transport) (l : Launch) (err : Option Error) : Call Bool :=
  match l with
  | Launch.HomeIntent a i => launch_HomeIntent transport a i err
  | Launch.LaunchIntent a i => launch_LaunchIntent transport a i err
  | Launch.EntityIntent a i => launch_EntityIntent transport a i err
  | Launch.PlaybackIntent a i => launch_PlaybackIntent transport a i err
  | Launch.SearchIntent a i => launch_SearchIntent transport a i err
  | Launch.SectionIntent a i => launch_SectionIntent transport a i err
  | Launch.TuneIntent a i => launch_TuneIntent transport a i err
  | Launch.PlayEntityIntent a i => launch_PlayEntityIntent transport a i err
  | Launch.PlayQueryIntent a i => launch_PlayQueryIntent transport a i err

/-- A call of a request method of `DiscoveryImpl` that goes through the transport, with its
arguments. -/
inductive Request where
  | clearContentAccess
  | contentAccess (ids : ContentAccessIdentifiers)
  | entitlements (entitlements : List Entertainment.Entitlement)
  | entityInfo (result : EntityInfoResult)
  | launch (l : Launch)
  | purchasedContent (result : PurchasedContentResult)
  | signIn (entitlements : Option (List Entertainment.Entitlement))
  | signOut
  | userInterest (type : EnumName) (reason : EnumName) (entity : Entity.EntityDetails)
  | watchNext (title : String) (identifiers : Entertainment.ContentIdentifiers)
      (expires : Option String) (images : Option Images)

/-- Dispatch of a request to the method it names. -/
def Request.run (transport : Option Transport) (err : Option Error) : Request → Call Returned
  | Request.clearContentAccess => asVoid (Discovery.clearContentAccess transport err)
  | Request.contentAccess ids => asVoid (Discovery.contentAccess transport ids err)
  | Request.entitlements es => asBool (Discovery.entitlements transport es err)
  | Request.entityInfo r => asBool (Discovery.entityInfo transport r err)
  | Request.launch l => asBool (Discovery.launch transport l err)
  | Request.purchasedContent r => asBool (Discovery.purchasedContent transport r err)
  | Request.signIn es => asBool (Discovery.signIn transport es err)
  | Request.signOut => asBool (Discovery.signOut transport err)
  | Request.userInterest t r e => asVoid (Discovery.userInterest transport t r e err)
  | Request.watchNext t i e im => asBool (Discovery.watchNext transport t i e im err)

/-- The methods declared `bool`. -/
def Request.returnsBool : Request → Bool
  | Request.clearContentAccess => false
  | Request.contentAccess _ => false
  | Request.userInterest _ _ _ => false
  | _ => true

/-- The two methods of the sign-in state, `signIn` and `signOut`. -/
def Request.isSignInState : Request → Bool
  | Request.signIn _ => true
  | Request.signOut => true
  | _ => false

/-- A transport that answers every request with the same status and result. -/
def constTransport (status : Error) (result : Json) : Transport :=
  ⟨fun _ _ => ⟨status, result⟩⟩

/-- The RPC method string named after each request method. -/
def Request.rpcName : Request → String
  | Request.clearContentAccess => "discovery.clearContentAccess"
  | Request.contentAccess _ => "discovery.contentAccess"
  | Request.entitlements _ => "discovery.entitlements"
  | Request.entityInfo _ => "discovery.entityInfo"
  | Request.launch _ => "discovery.launch"
  | Request.purchasedContent _ => "discovery.purchasedContent"
  | Request.signIn _ => "discovery.signIn"
  | Request.signOut => "discovery.signOut"
  | Request.userInterest _ _ _ => "discovery.userInterest"
  | Request.watchNext _ _ _ _ => "discovery.watchNext"

/-! ## The listener interfaces as a whole -/

/-- The twelve listener interfaces `IDiscovery::I...Notification` that `subscribe` and
`unsubscribe` are overloaded on. -/
inductive Listener where
  | OnNavigateToEntityIntent
  | OnNavigateToHomeIntent
  | OnNavigateToLaunchIntent
  | OnNavigateToPlaybackIntent
  | OnNavigateToPlayEntityIntent
  | OnNavigateToPlayQueryIntent
  | OnNavigateToSearchIntent
  | OnNavigateToSectionIntent
  | OnNavigateToTuneIntent
  | OnPolicyChanged
  | OnPullEntityInfo
  | OnPullPurchasedContent
  deriving DecidableEq

/-- Overload resolution of `subscribe`. -/
def Listener.subscribe (event : Event) (k : Listener) (notification : Address)
    (err : Option Error) : EventCall :=
  match k with
  | Listener.OnNavigateToEntityIntent => subscribe_OnNavigateToEntityIntent event notification err
  | Listener.OnNavigateToHomeIntent => subscribe_OnNavigateToHomeIntent event notification err
  | Listener.OnNavigateToLaunchIntent => subscribe_OnNavigateToLaunchIntent event notification err
  | Listener.OnNavigateToPlaybackIntent => subscribe_OnNavigateToPlaybackIntent event notification err
  | Listener.OnNavigateToPlayEntityIntent => subscribe_OnNavigateToPlayEntityIntent event notification err
  | Listener.OnNavigateToPlayQueryIntent => subscribe_OnNavigateToPlayQueryIntent event notification err
  | Listener.OnNavigateToSearchIntent => subscribe_OnNavigateToSearchIntent event notification err
  | Listener.OnNavigateToSectionIntent => subscribe_OnNavigateToSectionIntent event notification err
  | Listener.OnNavigateToTuneIntent => subscribe_OnNavigateToTuneIntent event notification err
  | Listener.OnPolicyChanged => subscribe_OnPolicyChanged event notification err
  | Listener.OnPullEntityInfo => subscribe_OnPullEntityInfo event notification err
  | Listener.OnPullPurchasedContent => subscribe_OnPullPurchasedContent event notification err

/-- Overload resolution of `unsubscribe`. -/
def Listener.unsubscribe (event : Event) (k : Listener) (notification : Address)
    (err : Option Error) : EventCall :=
  match k with
  | Listener.OnNavigateToEntityIntent => unsubscribe_OnNavigateToEntityIntent event notification err
  | Listener.OnNavigateToHomeIntent => unsubscribe_OnNavigateToHomeIntent event notification err
  | Listener.OnNavigateToLaunchIntent => unsubscribe_OnNavigateToLaunchIntent event notification err
  | Listener.OnNavigateToPlaybackIntent => unsubscribe_OnNavigateToPlaybackIntent event notification err
  | Listener.OnNavigateToPlayEntityIntent => unsubscribe_OnNavigateToPlayEntityIntent event notification err
  | Listener.OnNavigateToPlayQueryIntent => unsubscribe_OnNavigateToPlayQueryIntent event notification err
  | Listener.OnNavigateToSearchIntent => unsubscribe_OnNavigateToSearchIntent event notification err
  | Listener.OnNavigateToSectionIntent => unsubscribe_OnNavigateToSectionIntent event notification err
  | Listener.OnNavigateToTuneIntent => unsubscribe_OnNavigateToTuneIntent event notification err
  | Listener.OnPolicyChanged => unsubscribe_OnPolicyChanged event notification err
  | Listener.OnPullEntityInfo => unsubscribe_OnPullEntityInfo event notification err
  | Listener.OnPullPurchasedContent => unsubscribe_OnPullPurchasedContent event notification err

/-- The static inner callback written for each listener interface. -/
def Listener.innerCallback : Listener → InnerCallback
  | Listener.OnNavigateToEntityIntent => InnerCallback.onNavigateToEntityIntentInnerCallback
  | Listener.OnNavigateToHomeIntent => InnerCallback.onNavigateToHomeIntentInnerCallback
  | Listener.OnNavigateToLaunchIntent => InnerCallback.onNavigateToLaunchIntentInnerCallback
  | Listener.OnNavigateToPlaybackIntent => InnerCallback.onNavigateToPlaybackIntentInnerCallback
  | Listener.OnNavigateToPlayEntityIntent => InnerCallback.onNavigateToPlayEntityIntentInnerCallback
  | Listener.OnNavigateToPlayQueryIntent => InnerCallback.onNavigateToPlayQueryIntentInnerCallback
  | Listener.OnNavigateToSearchIntent => InnerCallback.onNavigateToSearchIntentInnerCallback
  | Listener.OnNavigateToSectionIntent => InnerCallback.onNavigateToSectionIntentInnerCallback
  | Listener.OnNavigateToTuneIntent => InnerCallback.onNavigateToTuneIntentInnerCallback
  | Listener.OnPolicyChanged => InnerCallback.onPolicyChangedInnerCallback
  | Listener.OnPullEntityInfo => InnerCallback.onPullEntityInfoInnerCallback
  | Listener.OnPullPurchasedContent => InnerCallback.onPullPurchasedContentInnerCallback

/-- The nine listener interfaces of `navigateTo` events. -/
def Listener.isNavigateTo : Listener → Bool
  | Listener.OnNavigateToEntityIntent => true
  | Listener.OnNavigateToHomeIntent => true
  | Listener.OnNavigateToLaunchIntent => true
  | Listener.OnNavigateToPlaybackIntent => true
  | Listener.OnNavigateToPlayEntityIntent => true
  | Listener.OnNavigateToPlayQueryIntent => true
  | Listener.OnNavigateToSearchIntent => true
  | Listener.OnNavigateToSectionIntent => true
  | Listener.OnNavigateToTuneIntent => true
  | _ => false

/-! ## Policy property -/

/-- The struct `Discovery::DiscoveryPolicy`. -/
structure DiscoveryPolicy where
  enableRecommendations : Bool
  shareWatchHistory : Bool
  rememberWatchedPrograms : Bool
  deriving DecidableEq

/-- The container `JsonData_DiscoveryPolicy`. -/
structure JsonData_DiscoveryPolicy where
  EnableRecommendations : JsonLeaf Bool
  ShareWatchHistory : JsonLeaf Bool
  RememberWatchedPrograms : JsonLeaf Bool

/-- The property getter `FireboltSDK::Properties::Get`, external to the module: for a property
name, the status it returns and the content of the result holder after the call. -/
structure Properties where
  Get : String → Error × JsonData_DiscoveryPolicy

/-- Everything observable of one call of `policy`: the property names handed to
`Properties::Get`, the content of `*err` afterwards and the returned policy. -/
structure PolicyCall where
  got : List String
  err : Option Error
  policy : DiscoveryPolicy

/-- The method `DiscoveryImpl::policy`. `defaultPolicy` is the value of the default-constructed
local `DiscoveryPolicy policy;` (the struct is declared outside the module). -/
def policy (properties : Properties) (defaultPolicy : DiscoveryPolicy) (err : Option Error) :
    PolicyCall :=
  let method := "discovery.policy"
  let jsonResult := (properties.Get method).2
  let status := (properties.Get method).1
  let policy : DiscoveryPolicy :=
    if status = Error.None then
      ⟨jsonResult.EnableRecommendations.Value, jsonResult.ShareWatchHistory.Value,
        jsonResult.RememberWatchedPrograms.Value⟩
    else defaultPolicy
  ⟨[method], storeErr err status, policy⟩

/-! ## User interest provider -/

/-- The `Parameters` member of `JsonData_Request`. -/
structure JsonData_RequestParameters where
  Type_ : JsonLeaf EnumName
  Reason : JsonLeaf EnumName

/-- The container `JsonData_Request` of an `onRequestUserInterest` event. -/
structure JsonData_Request where
  CorrelationId : JsonLeaf String
  Parameters : JsonData_RequestParameters

/-- The `parameters` member of the struct `Request`. -/
structure UserInterestProviderParameters where
  type : EnumName
  reason : EnumName

/-- The struct `Discovery::Request` filled by the provider callback (named `ProviderRequest`
here, `Request` being the type of the calls of the interface). -/
structure ProviderRequest where
  correlationId : String
  parameters : UserInterestProviderParameters

/-- The class `DiscoveryUserInterestSession`, whose only state is `_correlationId`. -/
structure DiscoveryUserInterestSession where
  _correlationId : String

/-- The accessor `DiscoveryUserInterestSession::correlationId()`. -/
def DiscoveryUserInterestSession.correlationId (session : DiscoveryUserInterestSession) :
    String :=
  session._correlationId

/-- One recorded call of `IDiscoveryProvider::userInterest`. -/
structure ProviderCall where
  parameters : UserInterestProviderParameters
  session : DiscoveryUserInterestSession

/-- The static function `DiscoveryUserInterestSessionInnerCallback`. `jsonResponse` is `none`
for a proxy that is not valid. The session is `std::make_unique<DiscoveryUserInterestSession>()`,
whose `_correlationId` is a default-constructed `std::string`; no statement copies
`request.correlationId` into it. -/
def DiscoveryUserInterestSessionInnerCallback (jsonResponse : Option JsonData_Request) :
    List ProviderCall :=
  match jsonResponse with
  | some proxyResponse =>
    let request : ProviderRequest :=
      ⟨proxyResponse.CorrelationId.Value,
        ⟨proxyResponse.Parameters.Type_.Value, proxyResponse.Parameters.Reason.Value⟩⟩
    let discoveryUserInterestSession : DiscoveryUserInterestSession := ⟨""⟩
    [⟨request.parameters, discoveryUserInterestSession⟩]
  | none => []

/-- The method `DiscoveryImpl::provide`. The status `Event::Subscribe` returns is only logged,
so the event subsystem is no argument here and nothing is stored in an `err`. -/
def provide (provider : Address) : EventCall :=
  let eventName := "discovery.onRequestUserInterest"
  let jsonParameters := JsonObject.empty
  ⟨[⟨ResponseType.JsonData_Request, eventName, jsonParameters,
      InnerCallback.DiscoveryUserInterestSessionInnerCallback, provider, none⟩], [], none⟩

/-! ## Intent containers and `navigateTo` callbacks

The `JsonData_*Intent` containers are structures of leaves. A default-constructed leaf is not
set; an assignment sets it. A nested container has no state of its own: its `IsSet()` is true
exactly when one of its members is set, so a nested container none of whose members was
assigned is in the state of a default-constructed one. -/

/-- The assignment `leaf = v;`. -/
def assign {α : Type} (v : α) : JsonLeaf α :=
  ⟨true, v⟩

/-- The statement `if (o.has_value()) { leaf = o.value(); }` on a default-constructed leaf whose
default value is `d`. -/
def assignIf {α : Type} (o : Option α) (d : α) : JsonLeaf α :=
  match o with
  | some v => ⟨true, v⟩
  | none => ⟨false, d⟩

/-- Serialisation of one leaf member: present exactly when the leaf is set. -/
def leafField {α : Type} (name : String) (f : α → Json) (leaf : JsonLeaf α) :
    String × Option Json :=
  (name, if leaf.IsSet then some (f leaf.Value) else none)

/-- The `Context` member of the intent containers. -/
structure JsonData_IntentContext where
  Source : JsonLeaf String

/-- The container `Intents::JsonData_HomeIntent`. -/
structure JsonData_HomeIntent where
  Action : JsonLeaf String
  Context : JsonData_IntentContext

/-- The container `Intents::JsonData_LaunchIntent`. -/
structure JsonData_LaunchIntent where
  Action : JsonLeaf String
  Context : JsonData_IntentContext

/-- The `Data` member of `Intents::JsonData_SectionIntent`. -/
structure JsonData_SectionIntentData where
  SectionName : JsonLeaf String

/-- The container `Intents::JsonData_SectionIntent`. -/
structure JsonData_SectionIntent where
  Action : JsonLeaf String
  Data : JsonData_SectionIntentData
  Context : JsonData_IntentContext

/-- The `Data.Entity` member of `Intents::JsonData_TuneIntent`. -/
structure JsonData_ChannelEntity where
  EntityType : JsonLeaf String
  ChannelType : JsonLeaf EnumName
  EntityId : JsonLeaf String
  AppContentData : JsonLeaf String

/-- The `Data.Options` member of `Intents::JsonData_TuneIntent`. -/
structure JsonData_TuneIntentDataOptions where
  AssetId : JsonLeaf String
  RestartCurrentProgram : JsonLeaf Bool
  Time : JsonLeaf String

/-- The call `Data.Options.IsSet()`: one of the members is set. -/
def JsonData_TuneIntentDataOptions.IsSet (c : JsonData_TuneIntentDataOptions) : Bool :=
  c.AssetId.IsSet || c.RestartCurrentProgram.IsSet || c.Time.IsSet

/-- The `Data` member of `Intents::JsonData_TuneIntent`. -/
structure JsonData_TuneIntentData where
  Entity : JsonData_ChannelEntity
  Options : JsonData_TuneIntentDataOptions

/-- The container `Intents::JsonData_TuneIntent`. -/
structure JsonData_TuneIntent where
  Action : JsonLeaf String
  Data : JsonData_TuneIntentData
  Context : JsonData_IntentContext

/-- The `intentContainer` of `launch` on a `HomeIntent`, after its assignments. -/
def homeIntentContainer (element : Intents.HomeIntent) : JsonData_HomeIntent :=
  ⟨assign element.action, ⟨assign element.context.source⟩⟩

/-- The `intentContainer` of `launch` on a `LaunchIntent`, after its assignments. -/
def launchIntentContainer (element : Intents.LaunchIntent) : JsonData_LaunchIntent :=
  ⟨assign element.action, ⟨assign element.context.source⟩⟩

/-- The `intentContainer` of `launch` on a `SectionIntent`, after its assignments. -/
def sectionIntentContainer (element : Intents.SectionIntent) : JsonData_SectionIntent :=
  ⟨assign element.action, ⟨assign element.data.sectionName⟩, ⟨assign element.context.source⟩⟩

/-- The `intentContainer` of `launch` on a `TuneIntent`, after its assignments; the options are
read through `element.data.options.value()`. -/
def tuneIntentContainer (element : Intents.TuneIntent) : Except Exception JsonData_TuneIntent :=
  match value element.data.options with
  | Except.ok options =>
    Except.ok
      ⟨assign element.action,
        ⟨⟨assign element.data.entity.entityType, assign element.data.entity.channelType,
            assign element.data.entity.entityId,
            assignIf element.data.entity.appContentData ""⟩,
          ⟨assignIf options.assetId "", assignIf options.restartCurrentProgram false,
            assignIf options.time ""⟩⟩,
        ⟨assign element.context.source⟩⟩
  | Except.error ex => Except.error ex

/-- Members of a `JsonData_HomeIntent` as they are serialised. -/
def JsonData_HomeIntent.fields (c : JsonData_HomeIntent) : List (String × Option Json) :=
  [leafField "action" Json.str c.Action,
   ("context", nested [leafField "source" Json.str c.Context.Source])]

/-- Members of a `JsonData_LaunchIntent` as they are serialised. -/
def JsonData_LaunchIntent.fields (c : JsonData_LaunchIntent) : List (String × Option Json) :=
  [leafField "action" Json.str c.Action,
   ("context", nested [leafField "source" Json.str c.Context.Source])]

/-- Members of a `JsonData_SectionIntent` as they are serialised. -/
def JsonData_SectionIntent.fields (c : JsonData_SectionIntent) : List (String × Option Json) :=
  [leafField "action" Json.str c.Action,
   ("data", nested [leafField "sectionName" Json.str c.Data.SectionName]),
   ("context", nested [leafField "source" Json.str c.Context.Source])]

/-- Members of a `JsonData_TuneIntent` as they are serialised. -/
def JsonData_TuneIntent.fields (c : JsonData_TuneIntent) : List (String × Option Json) :=
  [leafField "action" Json.str c.Action,
   ("data", nested
     [("entity", nested
        [leafField "entityType" Json.str c.Data.Entity.EntityType,
         leafField "channelType" Json.str c.Data.Entity.ChannelType,
         leafField "entityId" Json.str c.Data.Entity.EntityId,
         leafField "appContentData" Json.str c.Data.Entity.AppContentData]),
      ("options", nested
        [leafField "assetId" Json.str c.Data.Options.AssetId,
         leafField "restartCurrentProgram" Json.bool c.Data.Options.RestartCurrentProgram,
         leafField "time" Json.str c.Data.Options.Time])]),
   ("context", nested [leafField "source" Json.str c.Context.Source])]

/-- The static function `onNavigateToHomeIntentInnerCallback`: the values the listener method
`onNavigateTo` is called with. `jsonResponse` is `none` for a proxy that is not valid. -/
def onNavigateToHomeIntentInnerCallback (jsonResponse : Option JsonData_HomeIntent) :
    List Intents.HomeIntent :=
  match jsonResponse with
  | some proxyResponse =>
    [⟨proxyResponse.Action.Value, ⟨proxyResponse.Context.Source.Value⟩⟩]
  | none => []

/-- The static function `onNavigateToLaunchIntentInnerCallback`. -/
def onNavigateToLaunchIntentInnerCallback (jsonResponse : Option JsonData_LaunchIntent) :
    List Intents.LaunchIntent :=
  match jsonResponse with
  | some proxyResponse =>
    [⟨proxyResponse.Action.Value, ⟨proxyResponse.Context.Source.Value⟩⟩]
  | none => []

/-- The static function `onNavigateToSectionIntentInnerCallback`. -/
def onNavigateToSectionIntentInnerCallback (jsonResponse : Option JsonData_SectionIntent) :
    List Intents.SectionIntent :=
  match jsonResponse with
  | some proxyResponse =>
    [⟨proxyResponse.Action.Value, ⟨proxyResponse.Data.SectionName.Value⟩,
      ⟨proxyResponse.Context.Source.Value⟩⟩]
  | none => []

/-- The static function `onNavigateToTuneIntentInnerCallback`. The options of the delivered
intent get a value only under the guard `Data.Options.IsSet()`. -/
def onNavigateToTuneIntentInnerCallback (jsonResponse : Option JsonData_TuneIntent) :
    List Intents.TuneIntent :=
  match jsonResponse with
  | some proxyResponse =>
    let entity : Intents.ChannelEntity :=
      ⟨proxyResponse.Data.Entity.EntityType.Value, proxyResponse.Data.Entity.ChannelType.Value,
        proxyResponse.Data.Entity.EntityId.Value,
        optionalOf proxyResponse.Data.Entity.AppContentData⟩
    let options : Option Intents.TuneIntentDataOptions :=
      if proxyResponse.Data.Options.IsSet then
        some ⟨optionalOf proxyResponse.Data.Options.AssetId,
          optionalOf proxyResponse.Data.Options.RestartCurrentProgram,
          optionalOf proxyResponse.Data.Options.Time⟩
      else none
    [⟨proxyResponse.Action.Value, ⟨entity, options⟩, ⟨proxyResponse.Context.Source.Value⟩⟩]
  | none => []

/-- Marshalling by `launch` followed by the `TuneIntent` callback on the container built. -/
def tuneIntentRoundTrip (intent : Intents.TuneIntent) :
    Except Exception (List Intents.TuneIntent) :=
  match tuneIntentContainer intent with
  | Except.ok container => Except.ok (onNavigateToTuneIntentInnerCallback (some container))
  | Except.error ex => Except.error ex

end Discovery

/-! ## Account interface (unit test) -/

namespace Account

/-- Value of a `FireboltSDK::JSON::String` result holder: the string the transport wrote into
it, the empty string when it wrote none. -/
def stringValue : Json → String
  | Json.str s => s
  | _ => ""

/-- Modelled from the spec: the method `AccountImpl::id` behind `AccountInterface().id(&error)`,
which the unit test calls and which is not among the sources at hand. By the contract the spec
records for every SDK method, it serialises its (empty) parameters to a JSON object, invokes the
RPC method string named after it through the transport, deserialises the JSON result into the
typed return value, and passes the transport status through the out-parameter; without a
transport the status is `NotConnected`. -/
def id (transport : Option Transport) (err : Option Error) : Call String :=
  match transport with
  | some t =>
    let jsonParameters := JsonObject.empty
    let jsonResult := t.Invoke "account.id" jsonParameters
    let value := if jsonResult.status = Error.None then stringValue jsonResult.result else ""
    ⟨[⟨"account.id", jsonParameters⟩], [], storeErr err jsonResult.status, Except.ok value⟩
  | none => ⟨[], [], storeErr err Error.NotConnected, Except.ok ""⟩

/-- Modelled from the spec: the mock transport the unit test connects to, which is not among
the sources at hand; it delivers the account id `000000` for the account id request. -/
def mockTransport : Transport :=
  ⟨fun method _ =>
    if method = "account.id" then ⟨Error.None, Json.str "000000"⟩
    else ⟨Error.None, Json.null⟩⟩

end Account

namespace Discovery

/-! ## Reading traces and the event name of each listener -/

/-- The parameters the listener was called with, in call order, in the trace of a pull
callback. -/
def notifiedParameters {P : Type} : List (PullStep P) → List P
  | [] => []
  | PullStep.notified parameters :: rest => parameters :: notifiedParameters rest
  | PullStep.invoked _ :: rest => notifiedParameters rest

/-- The wire event name of each listener interface: one name for the nine `navigateTo`
listeners, and one name each for the policy listener and the two pull listeners. -/
def Listener.wireEventName (k : Listener) : String :=
  if k.isNavigateTo then "discovery.onNavigateTo"
  else
    match k with
    | Listener.OnPolicyChanged => "discovery.onPolicyChanged"
    | Listener.OnPullEntityInfo => "discovery.onPullEntityInfo"
    | Listener.OnPullPurchasedContent => "discovery.onPullPurchasedContent"
    | _ => "discovery.onNavigateTo"

/-! ## Inputs on which marshalling takes the value of an empty optional -/

/-- The `launch` calls that reach `value()` on an empty optional: an intent is given, and it is
a `SearchIntent` without `data` (line 804) or a `TuneIntent`, `PlayEntityIntent` or
`PlayQueryIntent` without `data.options` (lines 911, 971, 1028). -/
def Launch.readsAbsentOptional : Launch → Bool
  | Launch.SearchIntent _ (some intent) => intent.data.isNone
  | Launch.TuneIntent _ (some intent) => intent.data.options.isNone
  | Launch.PlayEntityIntent _ (some intent) => intent.data.options.isNone
  | Launch.PlayQueryIntent _ (some intent) => intent.data.options.isNone
  | _ => false

/-- The requests that reach `value()` on an empty optional: the `launch` calls above, and
`userInterest` on an entity without `info` (line 1431). -/
def Request.readsAbsentOptional : Request → Bool
  | Request.launch l => l.readsAbsentOptional
  | Request.userInterest _ _ entity => entity.info.isNone
  | _ => false

/-! ## Properties -/

/-- Whenever a request method reaches `Invoke`, it does so once, and (for the methods other than
`signIn` and `signOut`) `*err` holds the status that call returned, unchanged. -/
theorem err_is_invoke_status_when_invoked (r : Request) (t : Transport) (e0 : Error)
    (inv : Invocation) (hinv : inv ∈ (r.run (some t) (some e0)).invoked) :
    (r.run (some t) (some e0)).invoked = [inv] ∧
    (r.isSignInState = false →
      (r.run (some t) (some e0)).err = some (t.Invoke inv.method inv.parameters).status) := by
  cases r with
  | launch l =>
    cases l <;>
    simp only [Request.run, launch, asBool, launch_HomeIntent, launch_LaunchIntent,
      launch_EntityIntent, launch_PlaybackIntent, launch_SearchIntent, launch_SectionIntent,
      launch_TuneIntent, launch_PlayEntityIntent, launch_PlayQueryIntent] at hinv ⊢ <;>
    (try split at hinv) <;> simp_all [storeErr, Request.isSignInState]
  | userInterest ty re en =>
    simp only [Request.run, asVoid, userInterest] at hinv ⊢
    split at hinv <;> simp_all [storeErr, Request.isSignInState]
  | signIn es =>
    simp only [Request.run, asBool, signIn] at hinv ⊢
    split at hinv <;> simp_all [storeErr, Request.isSignInState]
  | signOut =>
    simp only [Request.run, asBool, signOut] at hinv ⊢
    split at hinv <;> simp_all [storeErr, Request.isSignInState]
  | _ =>
    simp_all [Request.run, asVoid, asBool, clearContentAccess, contentAccess, entitlements,
      entityInfo, purchasedContent, watchNext, storeErr, Request.isSignInState]

/-- C1, at the input where it fails: with a transport available and `err` pointing to a variable,
`launch` on a `SearchIntent` whose optional `data` is absent ends in `bad_optional_access` before
`Invoke` is reached, so `Invoke` is called zero times and `*err` keeps the value it had; the same
happens in `userInterest` on an entity whose optional `info` is absent. -/
theorem launch_search_without_data_never_invokes :
    (launch_SearchIntent (some (constTransport Error.None (Json.bool true))) "app"
        (some ⟨"search", none, ⟨"voice"⟩⟩) (some (Error.Other 1))).invoked = [] ∧
    (launch_SearchIntent (some (constTransport Error.None (Json.bool true))) "app"
        (some ⟨"search", none, ⟨"voice"⟩⟩) (some (Error.Other 1))).err = some (Error.Other 1) ∧
    (launch_SearchIntent (some (constTransport Error.None (Json.bool true))) "app"
        (some ⟨"search", none, ⟨"voice"⟩⟩) (some (Error.Other 1))).outcome
      = Except.error Exception.bad_optional_access ∧
    (userInterest (some (constTransport Error.None Json.null)) "interest" "playlist"
        ⟨"ids", none, none⟩ (some (Error.Other 1))).invoked = [] ∧
    (userInterest (some (constTransport Error.None Json.null)) "interest" "playlist"
        ⟨"ids", none, none⟩ (some (Error.Other 1))).err = some (Error.Other 1) := by
  refine ⟨rfl, rfl, rfl, rfl, rfl⟩

/-- C2, on the code: `signIn` and `signOut` never store into `*err`. Whatever the transport and
whatever status `Invoke` returns, `*err` keeps the value it had before the call; in particular a
variable holding `None` still holds `None`, not `NotConnected`, after a call without transport,
and does not receive the failure status of `Invoke`. -/
theorem signIn_signOut_never_store_err :
    (∀ (transport : Option Transport) (es : Option (List Entertainment.Entitlement))
        (err : Option Error), (signIn transport es err).err = err) ∧
    (∀ (transport : Option Transport) (err : Option Error), (signOut transport err).err = err) ∧
    (signIn none none (some Error.None)).err = some Error.None ∧
    (signOut none (some Error.None)).err = some Error.None ∧
    (signIn (some (constTransport (Error.Other 1) Json.null)) none (some Error.None)).err
      = some Error.None ∧
    (signOut (some (constTransport (Error.Other 1) Json.null)) (some Error.None)).err
      = some Error.None := by
  refine ⟨?_, ?_, rfl, rfl, rfl, rfl⟩
  · intro transport es err
    cases transport with
    | none => rfl
    | some t =>
      simp only [signIn]
      split <;> rfl
  · intro transport err
    cases transport with
    | none => rfl
    | some t =>
      simp only [signOut]
      split <;> rfl

/-- C3: without a transport, every request method other than `signIn` and `signOut`, and the
helper `ProviderInvokeSession`, calls `Invoke` not at all, stores `NotConnected` in `*err` when
`err` is not null (and nothing when it is), and returns `false` when it is declared `bool`. -/
theorem no_transport_gives_not_connected (r : Request) (h : r.isSignInState = false) :
    (∀ err, (r.run none err).invoked = []) ∧
    (∀ e0, (r.run none (some e0)).err = some Error.NotConnected) ∧
    (r.run none none).err = none ∧
    (∀ err, (r.run none err).outcome
      = Except.ok (if r.returnsBool then Returned.bool false else Returned.void)) ∧
    (∀ methodName jsonParameters err,
      (ProviderInvokeSession none methodName jsonParameters err).invoked = []) ∧
    (∀ methodName jsonParameters e0,
      (ProviderInvokeSession none methodName jsonParameters (some e0)).err
        = some Error.NotConnected) := by
  refine ⟨?_, ?_, ?_, ?_, fun _ _ _ => rfl, fun _ _ _ => rfl⟩
  · intro err
    cases r with
    | launch l => cases l <;> rfl
    | _ => rfl
  · intro e0
    cases r with
    | launch l => cases l <;> rfl
    | _ => first | rfl | simp [Request.isSignInState] at h
  · cases r with
    | launch l => cases l <;> rfl
    | _ => rfl
  · intro err
    cases r with
    | launch l => cases l <;> rfl
    | _ => rfl

/-- Witness of C3 at `entitlements` with an empty list. -/
theorem no_transport_gives_not_connected_witness :
    (Request.entitlements []).isSignInState = false ∧
    (Request.run none (some Error.None) (Request.entitlements [])).err
      = some Error.NotConnected ∧
    (Request.run none (some Error.None) (Request.entitlements [])).outcome
      = Except.ok (Returned.bool false) :=
  ⟨rfl, (no_transport_gives_not_connected (Request.entitlements []) rfl).2.1 Error.None,
    (no_transport_gives_not_connected (Request.entitlements []) rfl).2.2.2.1 (some Error.None)⟩

/-- C6: each of the nine `navigateTo` subscribe overloads calls `Event::Subscribe` once, with the
wire event name `discovery.onNavigateTo`, the inner callback written for its listener interface
and the address of the caller's notification object as listener key; the inner callbacks of
different interfaces are different, while the event name is one and the same. -/
theorem navigateTo_subscribe_shares_wire_event (k : Listener) (hk : k.isNavigateTo = true)
    (event : Event) (notification : Address) (err : Option Error) :
    (∃ sub : Subscribed, (k.subscribe event notification err).subscribed = [sub] ∧
      sub.eventName = "discovery.onNavigateTo" ∧ sub.callback = k.innerCallback ∧
      sub.listener = notification) ∧
    (k.subscribe event notification err).unsubscribed = [] ∧
    (∀ k2 : Listener, k2.innerCallback = k.innerCallback → k2 = k) := by
  refine ⟨?_, ?_, ?_⟩
  · cases k <;> first
      | exact ⟨_, rfl, rfl, rfl, rfl⟩
      | simp [Listener.isNavigateTo] at hk
  · cases k <;> rfl
  · intro k2 h
    cases k <;> cases k2 <;> first | rfl | simp [Listener.innerCallback] at h

/-- Witness of C6 at the `TuneIntent` listener. -/
theorem navigateTo_subscribe_shares_wire_event_witness :
    Listener.OnNavigateToTuneIntent.isNavigateTo = true ∧
    ∃ sub : Subscribed,
      (Listener.subscribe ⟨fun _ _ _ _ _ _ => Error.None, fun _ _ => Error.None⟩
        Listener.OnNavigateToTuneIntent 7 none).subscribed = [sub] ∧
      sub.eventName = "discovery.onNavigateTo" ∧
      sub.callback = Listener.OnNavigateToTuneIntent.innerCallback ∧
      sub.listener = 7 :=
  ⟨rfl, (navigateTo_subscribe_shares_wire_event Listener.OnNavigateToTuneIntent rfl
    ⟨fun _ _ _ _ _ _ => Error.None, fun _ _ => Error.None⟩ 7 none).1⟩

/-- C10 as stated fails: on one and the same transport `clearContentAccess` and `contentAccess`
with two empty lists send requests with different method names and different parameter objects,
and on a transport that knows only one of the two methods they store different statuses. -/
theorem clearContentAccess_request_differs_from_contentAccess :
    (clearContentAccess (some (constTransport Error.None Json.null)) (some Error.None)).invoked.map
        Invocation.method
      ≠ (contentAccess (some (constTransport Error.None Json.null)) ⟨some [], some []⟩
          (some Error.None)).invoked.map Invocation.method ∧
    (clearContentAccess (some (constTransport Error.None Json.null)) (some Error.None)).invoked.map
        (fun inv => inv.parameters.keys)
      ≠ (contentAccess (some (constTransport Error.None Json.null)) ⟨some [], some []⟩
          (some Error.None)).invoked.map (fun inv => inv.parameters.keys) ∧
    (clearContentAccess
        (some ⟨fun method _ => if method = "discovery.contentAccess" then ⟨Error.None, Json.null⟩
          else ⟨Error.Other (-32601), Json.null⟩⟩) (some Error.None)).err
      ≠ (contentAccess
        (some ⟨fun method _ => if method = "discovery.contentAccess" then ⟨Error.None, Json.null⟩
          else ⟨Error.Other (-32601), Json.null⟩⟩) ⟨some [], some []⟩ (some Error.None)).err := by
  refine ⟨?_, ?_, ?_⟩
  · simp [clearContentAccess, contentAccess]
  · simp [clearContentAccess, contentAccess, JsonObject.keys, JsonObject.Set, JsonObject.empty,
      setMember]
  · simp [clearContentAccess, contentAccess, storeErr]

/-- C11: whatever the transport state, `signOut` issues at most one RPC, and that RPC is
`discovery.signOut` with an empty parameter object: exactly that one on a transport, none
without; it never issues `discovery.clearContentAccess`, `discovery.contentAccess` or
`discovery.entitlements`. -/
theorem signOut_issues_only_signOut (err : Option Error) :
    (∀ t : Transport, (signOut (some t) err).invoked = [⟨"discovery.signOut", ⟨[]⟩⟩]) ∧
    (signOut none err).invoked = [] ∧
    (∀ (transport : Option Transport) (inv : Invocation),
      inv ∈ (signOut transport err).invoked →
        inv.method = "discovery.signOut" ∧ inv.parameters.members = [] ∧
        inv.method ≠ "discovery.clearContentAccess" ∧ inv.method ≠ "discovery.contentAccess" ∧
        inv.method ≠ "discovery.entitlements") := by
  have h1 : ∀ t : Transport, (signOut (some t) err).invoked = [⟨"discovery.signOut", ⟨[]⟩⟩] := by
    intro t
    simp only [signOut]
    split <;> rfl
  refine ⟨h1, rfl, ?_⟩
  intro transport inv hinv
  cases transport with
  | none => simp [signOut] at hinv
  | some t =>
    rw [h1 t] at hinv
    simp at hinv
    subst hinv
    simp

/-- C12: `policy` asks the property getter once, for `discovery.policy`. When the getter's status
is `None` the returned policy has the three fields of the JSON result; for any other status it
is the default-constructed policy; in both cases `*err`, when not null, holds the getter's
status. -/
theorem policy_follows_getter (properties : Properties) (defaultPolicy : DiscoveryPolicy) :
    (∀ err, (policy properties defaultPolicy err).got = ["discovery.policy"]) ∧
    ((properties.Get "discovery.policy").1 = Error.None →
      ∀ err, (policy properties defaultPolicy err).policy
        = ⟨(properties.Get "discovery.policy").2.EnableRecommendations.Value,
           (properties.Get "discovery.policy").2.ShareWatchHistory.Value,
           (properties.Get "discovery.policy").2.RememberWatchedPrograms.Value⟩) ∧
    ((properties.Get "discovery.policy").1 ≠ Error.None →
      ∀ err, (policy properties defaultPolicy err).policy = defaultPolicy) ∧
    (∀ e0, (policy properties defaultPolicy (some e0)).err
      = some (properties.Get "discovery.policy").1) ∧
    (policy properties defaultPolicy none).err = none := by
  refine ⟨fun _ => rfl, ?_, ?_, fun _ => rfl, rfl⟩
  · intro h err
    simp [policy, h]
  · intro h err
    simp [policy, h]

/-- Witness of C12: a getter that succeeds and a getter that fails. -/
theorem policy_follows_getter_witness :
    (policy ⟨fun _ => (Error.None, ⟨⟨true, true⟩, ⟨true, false⟩, ⟨true, true⟩⟩)⟩
        ⟨false, false, false⟩ none).policy = ⟨true, false, true⟩ ∧
    (policy ⟨fun _ => (Error.NotConnected, ⟨⟨true, true⟩, ⟨true, false⟩, ⟨true, true⟩⟩)⟩
        ⟨false, false, false⟩ none).policy = ⟨false, false, false⟩ :=
  ⟨(policy_follows_getter
      ⟨fun _ => (Error.None, ⟨⟨true, true⟩, ⟨true, false⟩, ⟨true, true⟩⟩)⟩
      ⟨false, false, false⟩).2.1 rfl none,
    (policy_follows_getter
      ⟨fun _ => (Error.NotConnected, ⟨⟨true, true⟩, ⟨true, false⟩, ⟨true, true⟩⟩)⟩
      ⟨false, false, false⟩).2.2.1 (by decide) none⟩

/-- C13: `entitlements` sends one request whose only parameter, `entitlements`, is the array
of the marshalled entitlements of the list, one object per entitlement in input order (so `n`
objects for `n` entitlements and the empty array for the empty list); the object of an
entitlement carries `entitlementId`, and `startTime` and `endTime` exactly when the entitlement
has them, with the same values. -/
theorem entitlements_sends_the_list (t : Transport) (es : List Entertainment.Entitlement)
    (err : Option Error) :
    (entitlements (some t) es err).invoked
      = [⟨"discovery.entitlements", ⟨[("entitlements",
          Json.arr (es.map (fun e => toVariant (entitlementFields e))))]⟩⟩] ∧
    (es.map (fun e => toVariant (entitlementFields e))).length = es.length ∧
    (∀ (i : Nat) (h : i < es.length),
      (es.map (fun e => toVariant (entitlementFields e)))[i]?
        = some (toVariant (entitlementFields (es.get ⟨i, h⟩)))) ∧
    (∀ e : Entertainment.Entitlement,
      (toVariant (entitlementFields e)).get? "entitlementId"
        = some (Json.str e.entitlementId) ∧
      (toVariant (entitlementFields e)).get? "startTime" = e.startTime.map Json.str ∧
      (toVariant (entitlementFields e)).get? "endTime" = e.endTime.map Json.str ∧
      ∀ key ∈ (toVariant (entitlementFields e)).keys,
        key ∈ ["entitlementId", "startTime", "endTime"]) ∧
    (entitlements (some t) [] err).invoked
      = [⟨"discovery.entitlements", ⟨[("entitlements", Json.arr [])]⟩⟩] := by
  refine ⟨rfl, by simp, ?_, ?_, rfl⟩
  · intro i h
    simp [List.getElem?_map, List.getElem?_eq_getElem h]
  · intro e
    cases hs : e.startTime <;> cases he : e.endTime <;>
      simp [toVariant, entitlementFields, setMembers, Json.get?, Json.keys, hs, he]

/-- Witness of C13: a list of two entitlements, the second one with a start time. -/
theorem entitlements_sends_the_list_witness :
    ([(⟨"a", none, none⟩ : Entertainment.Entitlement), ⟨"b", some "2024", none⟩].map
        (fun e => toVariant (entitlementFields e)))[1]?
      = some (toVariant (entitlementFields ⟨"b", some "2024", none⟩)) :=
  (entitlements_sends_the_list (constTransport Error.None Json.null)
    [⟨"a", none, none⟩, ⟨"b", some "2024", none⟩] none).2.2.1 1 (by decide)

/-- C14: every subscribe overload calls `Event::Subscribe` once and `Event::Unsubscribe` not at
all, every unsubscribe overload calls `Event::Unsubscribe` once and `Event::Subscribe` not at
all, and `*err`, when not null, holds exactly the status that one call returned. -/
theorem subscribe_passes_event_status (k : Listener) (event : Event) (notification : Address) :
    (∀ err, ∃ sub : Subscribed, (k.subscribe event notification err).subscribed = [sub] ∧
      (k.subscribe event notification err).unsubscribed = [] ∧
      (k.subscribe event notification err).err = err.map (fun _ =>
        event.Subscribe sub.responseType sub.eventName sub.parameters sub.callback sub.listener
          sub.userdata)) ∧
    (∀ err, ∃ unsub : Unsubscribed, (k.unsubscribe event notification err).unsubscribed = [unsub] ∧
      (k.unsubscribe event notification err).subscribed = [] ∧
      (k.unsubscribe event notification err).err = err.map (fun _ =>
        event.Unsubscribe unsub.eventName unsub.listener)) := by
  constructor
  · intro err
    cases k <;> exact ⟨_, rfl, rfl, rfl⟩
  · intro err
    cases k <;> exact ⟨_, rfl, rfl, rfl⟩

/-- C15: on a transport that delivers the string `s` with status `None` for the account id
request, `id` issues that one request and returns `s` unchanged; against the mock transport of
the unit test it returns `000000`. -/
theorem account_id_returns_delivered_string (t : Transport) (s : String)
    (hstatus : (t.Invoke "account.id" JsonObject.empty).status = Error.None)
    (hresult : (t.Invoke "account.id" JsonObject.empty).result = Json.str s)
    (err : Option Error) :
    (Account.id (some t) err).outcome = Except.ok s ∧
    (Account.id (some t) err).invoked = [⟨"account.id", JsonObject.empty⟩] ∧
    (Account.id (some t) err).err = err.map (fun _ => Error.None) := by
  simp [Account.id, hstatus, hresult, Account.stringValue, storeErr]

/-- Witness of C15: the unit test, `id(&error)` with `error` initialised to `None` against the
mock transport. -/
theorem account_id_returns_delivered_string_witness :
    (Account.id (some Account.mockTransport) (some Error.None)).outcome = Except.ok "000000" :=
  (account_id_returns_delivered_string Account.mockTransport "000000" rfl rfl
    (some Error.None)).1

/-- C16, on the code: `launch` on a `SearchIntent` whose `data` is absent, and on a `TuneIntent`,
`PlayEntityIntent` or `PlayQueryIntent` whose `data.options` is absent, takes the value of the
empty optional: on every transport the call ends in `bad_optional_access`, no `intent` parameter
is built and `Invoke` is not reached. -/
theorem launch_reads_absent_optional (t : Transport) (appId action : String)
    (context : Intents.IntentContext) (err : Option Error) :
    ((launch_SearchIntent (some t) appId (some ⟨action, none, context⟩) err).outcome
        = Except.error Exception.bad_optional_access ∧
      (launch_SearchIntent (some t) appId (some ⟨action, none, context⟩) err).invoked = []) ∧
    (∀ entity : Intents.ChannelEntity,
      (launch_TuneIntent (some t) appId (some ⟨action, ⟨entity, none⟩, context⟩) err).outcome
        = Except.error Exception.bad_optional_access ∧
      (launch_TuneIntent (some t) appId (some ⟨action, ⟨entity, none⟩, context⟩) err).invoked
        = []) ∧
    (∀ entity : String,
      (launch_PlayEntityIntent (some t) appId (some ⟨action, ⟨entity, none⟩, context⟩)
        err).outcome = Except.error Exception.bad_optional_access ∧
      (launch_PlayEntityIntent (some t) appId (some ⟨action, ⟨entity, none⟩, context⟩)
        err).invoked = []) ∧
    (∀ query : String,
      (launch_PlayQueryIntent (some t) appId (some ⟨action, ⟨query, none⟩, context⟩)
        err).outcome = Except.error Exception.bad_optional_access ∧
      (launch_PlayQueryIntent (some t) appId (some ⟨action, ⟨query, none⟩, context⟩)
        err).invoked = []) :=
  ⟨⟨rfl, rfl⟩, fun _ => ⟨rfl, rfl⟩, fun _ => ⟨rfl, rfl⟩, fun _ => ⟨rfl, rfl⟩⟩

/-- C17, on the code: `userInterest` on an entity whose `info` is absent takes the value of the
empty optional: on every transport the call ends in `bad_optional_access`, no `entity` parameter
is built, `Invoke` is not reached and `*err` is left as it was. -/
theorem userInterest_reads_absent_info (t : Transport) (type reason identifiers : String)
    (waysToWatch : Option (List Entertainment.WayToWatch)) (err : Option Error) :
    (userInterest (some t) type reason ⟨identifiers, none, waysToWatch⟩ err).outcome
      = Except.error Exception.bad_optional_access ∧
    (userInterest (some t) type reason ⟨identifiers, none, waysToWatch⟩ err).invoked = [] ∧
    (userInterest (some t) type reason ⟨identifiers, none, waysToWatch⟩ err).err = err :=
  ⟨rfl, rfl, rfl⟩

/-- C18, on the code: for every valid request the provider callback calls `userInterest` once,
with the type and the reason of the request, but with a session whose `correlationId()` is the
empty string whatever the correlation id of the request; for the correlation id `abc` the
session does not return `abc`. -/
theorem userInterest_session_has_empty_correlationId :
    (∀ request : JsonData_Request,
      DiscoveryUserInterestSessionInnerCallback (some request)
        = [⟨⟨request.Parameters.Type_.Value, request.Parameters.Reason.Value⟩, ⟨""⟩⟩]) ∧
    (∀ request : JsonData_Request,
      (DiscoveryUserInterestSessionInnerCallback (some request)).map
        (fun call => call.session.correlationId) = [""]) ∧
    (DiscoveryUserInterestSessionInnerCallback
        (some ⟨⟨true, "abc"⟩, ⟨⟨true, "interest"⟩, ⟨true, "playlist"⟩⟩⟩)).map
      (fun call => call.session.correlationId) ≠ ["abc"] := by
  refine ⟨fun _ => rfl, fun _ => rfl, ?_⟩
  simp [DiscoveryUserInterestSessionInnerCallback, DiscoveryUserInterestSession.correlationId]

/-- C19: when the listener returns `r`, the request the pull callback sends and the request
`entityInfo` sends for `r` have the same method, the same keys and the same `result`, namely the
marshalling of `r`; they agree on every member other than `correlationId`. -/
theorem push_and_pull_send_same_result (t : Transport) (r : EntityInfoResult)
    (notifier : EntityInfoParameters → EntityInfoResult)
    (request : JsonData_EntityInfoFederatedRequest)
    (hr : notifier ⟨request.Parameters.EntityId.Value, optionalOf request.Parameters.AssetId⟩ = r)
    (err : Option Error) :
    ∃ (pushed pulled : JsonObject) (step : PullStep EntityInfoParameters),
      (entityInfo (some t) r err).invoked = [⟨"discovery.entityInfo", pushed⟩] ∧
      onPullEntityInfoInnerCallback (some t) notifier (some request)
        = [step, PullStep.invoked ⟨"discovery.entityInfo", pulled⟩] ∧
      pushed.get? "result" = some (toVariant (entityInfoResultFields r)) ∧
      pulled.get? "result" = pushed.get? "result" ∧
      pulled.keys = pushed.keys ∧
      (∀ key : String, key ≠ "correlationId" → pulled.get? key = pushed.get? key) := by
  refine ⟨_, _, _, rfl, rfl, ?_, ?_, ?_, ?_⟩
  · simp [JsonObject.get?, JsonObject.Set, JsonObject.empty, setMember, Json.get?]
  · simp [JsonObject.get?, JsonObject.Set, JsonObject.empty, setMember, Json.get?, hr]
  · simp [JsonObject.keys, JsonObject.Set, JsonObject.empty, setMember]
  · intro key hkey
    have hk : ("correlationId" == key) = false := by
      simpa using fun h => hkey h.symm
    simp [JsonObject.get?, JsonObject.Set, JsonObject.empty, setMember, Json.get?, hr,
      List.find?, hk]

/-- Witness of C19: a listener that answers every request with the same result. -/
theorem push_and_pull_send_same_result_witness :
    ∃ (pushed pulled : JsonObject) (step : PullStep EntityInfoParameters),
      (entityInfo (some (constTransport Error.None (Json.bool true)))
        ⟨"2030", ⟨⟨none, some "e1", none, none, none⟩, "title", "program", none, none, none,
          none, none, none, none, none, none, none⟩, some []⟩ none).invoked
        = [⟨"discovery.entityInfo", pushed⟩] ∧
      onPullEntityInfoInnerCallback (some (constTransport Error.None (Json.bool true)))
        (fun _ => ⟨"2030", ⟨⟨none, some "e1", none, none, none⟩, "title", "program", none, none,
          none, none, none, none, none, none, none, none⟩, some []⟩)
        (some ⟨⟨true, "c-7"⟩, ⟨⟨true, "e1"⟩, ⟨false, ""⟩⟩⟩)
        = [step, PullStep.invoked ⟨"discovery.entityInfo", pulled⟩] ∧
      pulled.get? "result" = pushed.get? "result" := by
  obtain ⟨pushed, pulled, step, h1, h2, _, h4, _⟩ :=
    push_and_pull_send_same_result (constTransport Error.None (Json.bool true))
      ⟨"2030", ⟨⟨none, some "e1", none, none, none⟩, "title", "program", none, none, none,
        none, none, none, none, none, none, none⟩, some []⟩
      (fun _ => ⟨"2030", ⟨⟨none, some "e1", none, none, none⟩, "title", "program", none, none,
        none, none, none, none, none, none, none, none⟩, some []⟩)
      ⟨⟨true, "c-7"⟩, ⟨⟨true, "e1"⟩, ⟨false, ""⟩⟩⟩ rfl none
  exact ⟨pushed, pulled, step, h1, h2, h4⟩

/-- A leaf assigned under `has_value()` reads back, under `IsSet()`, as the optional it came
from. -/
theorem optionalOf_assignIf {α : Type} (o : Option α) (d : α) :
    optionalOf (assignIf o d) = o := by
  cases o <;> rfl

/-- A leaf assigned under `has_value()` is set exactly when the optional had a value. -/
theorem assignIf_isSet {α : Type} (o : Option α) (d : α) : (assignIf o d).IsSet = o.isSome := by
  cases o <;> rfl

/-- A leaf assigned under `has_value()` is serialised exactly when the optional had a value. -/
theorem leafField_assignIf {α : Type} (name : String) (f : α → Json) (o : Option α) (d : α) :
    leafField name f (assignIf o d) = (name, o.map f) := by
  cases o <;> rfl

/-- The intent containers of this section are the ones `launch` serialises: the `intent`
parameter it sends is the serialisation of the container built from the intent. -/
theorem launch_sends_the_intent_container (t : Transport) (appId : String)
    (err : Option Error) :
    (∀ i : Intents.HomeIntent,
      (launch_HomeIntent (some t) appId (some i) err).invoked.map
        (fun inv => inv.parameters.get? "intent")
        = [some (toVariant (homeIntentContainer i).fields)]) ∧
    (∀ i : Intents.LaunchIntent,
      (launch_LaunchIntent (some t) appId (some i) err).invoked.map
        (fun inv => inv.parameters.get? "intent")
        = [some (toVariant (launchIntentContainer i).fields)]) ∧
    (∀ i : Intents.SectionIntent,
      (launch_SectionIntent (some t) appId (some i) err).invoked.map
        (fun inv => inv.parameters.get? "intent")
        = [some (toVariant (sectionIntentContainer i).fields)]) ∧
    (∀ (i : Intents.TuneIntent) (c : JsonData_TuneIntent), tuneIntentContainer i = Except.ok c →
      (launch_TuneIntent (some t) appId (some i) err).invoked.map
        (fun inv => inv.parameters.get? "intent") = [some (toVariant c.fields)]) := by
  refine ⟨?_, ?_, ?_, ?_⟩
  · intro i
    simp [launch_HomeIntent, homeIntentContainer, JsonData_HomeIntent.fields, leafField, assign,
      contextFields, JsonObject.get?, JsonObject.Set, JsonObject.empty, setMember, Json.get?]
  · intro i
    simp [launch_LaunchIntent, launchIntentContainer, JsonData_LaunchIntent.fields, leafField,
      assign, contextFields, JsonObject.get?, JsonObject.Set, JsonObject.empty, setMember,
      Json.get?]
  · intro i
    simp [launch_SectionIntent, sectionIntentContainer, JsonData_SectionIntent.fields,
      leafField, assign, contextFields, JsonObject.get?, JsonObject.Set, JsonObject.empty,
      setMember, Json.get?]
  · intro i c hc
    cases ho : i.data.options with
    | none => simp [tuneIntentContainer, ho, value] at hc
    | some options =>
      simp only [tuneIntentContainer, ho, value, Except.ok.injEq] at hc
      subst hc
      simp only [JsonData_TuneIntent.fields, leafField_assignIf]
      simp [launch_TuneIntent, ho, value, leafField, assign, contextFields, JsonObject.get?,
        JsonObject.Set, JsonObject.empty, setMember, Json.get?]

/-- C20 as stated fails: a `TuneIntent` whose `data.options` is present but holds none of
`assetId`, `restartCurrentProgram`, `time` is marshalled by `launch` without error, and the
callback delivers it with `data.options` absent, which is not the original intent. -/
theorem tune_intent_with_empty_options_not_restored :
    tuneIntentRoundTrip ⟨"tune", ⟨⟨"program", "streaming", "e1", none⟩, some ⟨none, none, none⟩⟩,
        ⟨"voice"⟩⟩
      = Except.ok [⟨"tune", ⟨⟨"program", "streaming", "e1", none⟩, none⟩, ⟨"voice"⟩⟩] ∧
    tuneIntentRoundTrip ⟨"tune", ⟨⟨"program", "streaming", "e1", none⟩, some ⟨none, none, none⟩⟩,
        ⟨"voice"⟩⟩
      ≠ Except.ok [⟨"tune", ⟨⟨"program", "streaming", "e1", none⟩, some ⟨none, none, none⟩⟩,
          ⟨"voice"⟩⟩] := by
  refine ⟨rfl, ?_⟩
  intro h
  simp [tuneIntentRoundTrip, tuneIntentContainer, value, onNavigateToTuneIntentInnerCallback,
    JsonData_TuneIntentDataOptions.IsSet, assignIf, assign, optionalOf] at h

/-- C20, amended: the callback delivers an intent equal to the original for every `HomeIntent`,
`LaunchIntent` and `SectionIntent`, and for every `TuneIntent` whose `data.options` is present
and holds at least one of `assetId`, `restartCurrentProgram`, `time`; a `TuneIntent` whose
options are present but hold none of the three is delivered with `data.options` absent and
otherwise unchanged. -/
theorem intent_round_trip :
    (∀ i : Intents.HomeIntent,
      onNavigateToHomeIntentInnerCallback (some (homeIntentContainer i)) = [i]) ∧
    (∀ i : Intents.LaunchIntent,
      onNavigateToLaunchIntentInnerCallback (some (launchIntentContainer i)) = [i]) ∧
    (∀ i : Intents.SectionIntent,
      onNavigateToSectionIntentInnerCallback (some (sectionIntentContainer i)) = [i]) ∧
    (∀ (i : Intents.TuneIntent) (options : Intents.TuneIntentDataOptions),
      i.data.options = some options →
      (options.assetId.isSome || options.restartCurrentProgram.isSome || options.time.isSome)
        = true →
      tuneIntentRoundTrip i = Except.ok [i]) ∧
    (∀ i : Intents.TuneIntent, i.data.options = some ⟨none, none, none⟩ →
      tuneIntentRoundTrip i = Except.ok [⟨i.action, ⟨i.data.entity, none⟩, i.context⟩]) := by
  refine ⟨fun _ => rfl, fun _ => rfl, fun _ => rfl, ?_, ?_⟩
  · intro i options ho hsome
    obtain ⟨action, ⟨entity, opts⟩, context⟩ := i
    obtain ⟨entityType, channelType, entityId, appContentData⟩ := entity
    simp only at ho
    subst ho
    obtain ⟨assetId, restart, time⟩ := options
    simp only [tuneIntentRoundTrip, tuneIntentContainer, value,
      onNavigateToTuneIntentInnerCallback, JsonData_TuneIntentDataOptions.IsSet,
      assignIf_isSet, optionalOf_assignIf, assign]
    simp only at hsome
    simp [hsome]
  · intro i ho
    obtain ⟨action, ⟨entity, opts⟩, context⟩ := i
    obtain ⟨entityType, channelType, entityId, appContentData⟩ := entity
    simp only at ho
    subst ho
    simp [tuneIntentRoundTrip, tuneIntentContainer, value, onNavigateToTuneIntentInnerCallback,
      JsonData_TuneIntentDataOptions.IsSet, assignIf_isSet, optionalOf_assignIf, assign]

/-- Witness of C20, amended: a `TuneIntent` whose options hold `restartCurrentProgram`. -/
theorem intent_round_trip_witness :
    tuneIntentRoundTrip ⟨"tune", ⟨⟨"program", "streaming", "e1", some "data"⟩,
        some ⟨none, some true, none⟩⟩, ⟨"voice"⟩⟩
      = Except.ok [⟨"tune", ⟨⟨"program", "streaming", "e1", some "data"⟩,
          some ⟨none, some true, none⟩⟩, ⟨"voice"⟩⟩] :=
  intent_round_trip.2.2.2.1
    ⟨"tune", ⟨⟨"program", "streaming", "e1", some "data"⟩, some ⟨none, some true, none⟩⟩,
      ⟨"voice"⟩⟩ ⟨none, some true, none⟩ rfl rfl

/-- C21: `signIn` (resp. `signOut`) submits exactly one job to the worker pool, the dispatcher of
the Metrics `signIn` (resp. `signOut`), when `Invoke` returns status `None`, whatever the result
holder contains, and submits no job when `Invoke` returns any other status or when there is no
transport. -/
theorem signIn_signOut_submit_on_none_only (err : Option Error) :
    (∀ (t : Transport) (es : Option (List Entertainment.Entitlement)),
      ∃ inv : Invocation, (signIn (some t) es err).invoked = [inv] ∧
        (signIn (some t) es err).submitted
          = if (t.Invoke inv.method inv.parameters).status = Error.None
              then [Job.signInDispatcher] else []) ∧
    (∀ t : Transport,
      ∃ inv : Invocation, (signOut (some t) err).invoked = [inv] ∧
        (signOut (some t) err).submitted
          = if (t.Invoke inv.method inv.parameters).status = Error.None
              then [Job.signOutDispatcher] else []) ∧
    (∀ (result : Json) (es : Option (List Entertainment.Entitlement)),
      (signIn (some (constTransport Error.None result)) es err).submitted
        = [Job.signInDispatcher]) ∧
    (∀ result : Json,
      (signOut (some (constTransport Error.None result)) err).submitted
        = [Job.signOutDispatcher]) ∧
    (∀ (s : Error) (result : Json) (es : Option (List Entertainment.Entitlement)),
      s ≠ Error.None → (signIn (some (constTransport s result)) es err).submitted = []) ∧
    (∀ (s : Error) (result : Json), s ≠ Error.None →
      (signOut (some (constTransport s result)) err).submitted = []) ∧
    (∀ es : Option (List Entertainment.Entitlement), (signIn none es err).submitted = []) ∧
    (signOut none err).submitted = [] := by
  refine ⟨?_, ?_, fun _ _ => rfl, fun _ => rfl, ?_, ?_, fun _ => rfl, rfl⟩
  · intro t es
    simp only [signIn]
    split <;> simp_all
  · intro t
    simp only [signOut]
    split <;> simp_all
  · intro s result es hs
    simp [signIn, constTransport, hs]
  · intro s result hs
    simp [signOut, constTransport, hs]

/-- Witness of C21: a transport that fails with `NotConnected` while its holder says `true`. -/
theorem signIn_signOut_submit_on_none_only_witness :
    (signIn (some (constTransport Error.NotConnected (Json.bool true))) none none).submitted
      = [] ∧
    (signOut (some (constTransport Error.None (Json.bool false))) none).submitted
      = [Job.signOutDispatcher] :=
  ⟨(signIn_signOut_submit_on_none_only none).2.2.2.2.1 Error.NotConnected (Json.bool true) none
      (by decide),
    (signIn_signOut_submit_on_none_only none).2.2.2.1 (Json.bool false)⟩

/-- C22: `watchNext` sends one request whose parameter object has `title`, equal to the given
title, and `identifiers`, has `expires` exactly when `expires` has a value and `images` exactly
when `images` has a value, and whose `identifiers` object has each of `assetId`, `entityId`,
`seasonId`, `seriesId` and `appContentData` exactly when that field has a value, with the same
value, and no other key. -/
theorem watchNext_parameters (t : Transport) (title : String)
    (identifiers : Entertainment.ContentIdentifiers) (expires : Option String)
    (images : Option Images) (err : Option Error) :
    ∃ (jsonParameters : JsonObject) (identifiersVariant : Json),
      (watchNext (some t) title identifiers expires images err).invoked
        = [⟨"discovery.watchNext", jsonParameters⟩] ∧
      jsonParameters.get? "title" = some (Json.str title) ∧
      jsonParameters.get? "identifiers" = some identifiersVariant ∧
      jsonParameters.get? "expires" = expires.map Json.str ∧
      jsonParameters.get? "images" = images.map Json.raw ∧
      jsonParameters.contains "expires" = expires.isSome ∧
      jsonParameters.contains "images" = images.isSome ∧
      identifiersVariant.get? "assetId" = identifiers.assetId.map Json.str ∧
      identifiersVariant.get? "entityId" = identifiers.entityId.map Json.str ∧
      identifiersVariant.get? "seasonId" = identifiers.seasonId.map Json.str ∧
      identifiersVariant.get? "seriesId" = identifiers.seriesId.map Json.str ∧
      identifiersVariant.get? "appContentData" = identifiers.appContentData.map Json.str ∧
      (∀ key ∈ identifiersVariant.keys,
        key ∈ ["assetId", "entityId", "seasonId", "seriesId", "appContentData"]) := by
  refine ⟨_, toVariant (contentIdentifiersFields identifiers), rfl, ?_, ?_, ?_, ?_, ?_, ?_,
    ?_, ?_, ?_, ?_, ?_, ?_⟩
  · cases expires <;> cases images <;>
      simp [JsonObject.get?, JsonObject.Set, JsonObject.empty, setMember, Json.get?]
  · cases expires <;> cases images <;>
      simp [JsonObject.get?, JsonObject.Set, JsonObject.empty, setMember, Json.get?]
  · cases expires <;> cases images <;>
      simp [JsonObject.get?, JsonObject.Set, JsonObject.empty, setMember, Json.get?]
  · cases expires <;> cases images <;>
      simp [JsonObject.get?, JsonObject.Set, JsonObject.empty, setMember, Json.get?]
  · cases expires <;> cases images <;>
      simp [JsonObject.contains, JsonObject.keys, JsonObject.Set, JsonObject.empty, setMember]
  · cases expires <;> cases images <;>
      simp [JsonObject.contains, JsonObject.keys, JsonObject.Set, JsonObject.empty, setMember]
  all_goals
    cases h1 : identifiers.assetId <;> cases h2 : identifiers.entityId <;>
    cases h3 : identifiers.seasonId <;> cases h4 : identifiers.seriesId <;>
    cases h5 : identifiers.appContentData <;>
    simp [toVariant, contentIdentifiersFields, setMembers, Json.get?, Json.keys, h1, h2, h3,
      h4, h5]

/-- C23: on a valid pull request, with or without a transport, each pull callback calls the
listener once; the `EntityInfoParameters` it hands over have `entityId` equal to the JSON
`EntityId` and `assetId` present exactly when the JSON `AssetId` is set, then with its value;
the `PurchasedContentParameters` have `limit` equal to the JSON `Limit`, and `offeringType`
(resp. `programType`) present exactly when the JSON `OfferingType` (resp. `ProgramType`) is set,
then with its value. -/
theorem pull_parameters_are_optional_aware (transport : Option Transport) :
    (∀ (notifier : EntityInfoParameters → EntityInfoResult)
        (request : JsonData_EntityInfoFederatedRequest),
      ∃ parameters : EntityInfoParameters,
        notifiedParameters (onPullEntityInfoInnerCallback transport notifier (some request))
          = [parameters] ∧
        parameters.entityId = request.Parameters.EntityId.Value ∧
        parameters.assetId.isSome = request.Parameters.AssetId.IsSet ∧
        (request.Parameters.AssetId.IsSet = true →
          parameters.assetId = some request.Parameters.AssetId.Value)) ∧
    (∀ (notifier : PurchasedContentParameters → PurchasedContentResult)
        (request : JsonData_PurchasedContentFederatedRequest),
      ∃ parameters : PurchasedContentParameters,
        notifiedParameters (onPullPurchasedContentInnerCallback transport notifier
          (some request)) = [parameters] ∧
        parameters.limit = request.Parameters.Limit.Value ∧
        parameters.offeringType.isSome = request.Parameters.OfferingType.IsSet ∧
        parameters.programType.isSome = request.Parameters.ProgramType.IsSet ∧
        (request.Parameters.OfferingType.IsSet = true →
          parameters.offeringType = some request.Parameters.OfferingType.Value) ∧
        (request.Parameters.ProgramType.IsSet = true →
          parameters.programType = some request.Parameters.ProgramType.Value)) := by
  constructor
  · intro notifier request
    refine ⟨⟨request.Parameters.EntityId.Value, optionalOf request.Parameters.AssetId⟩,
      ?_, rfl, ?_, ?_⟩
    · cases transport <;> rfl
    · cases h : request.Parameters.AssetId.IsSet <;> simp [optionalOf, h]
    · intro h
      simp [optionalOf, h]
  · intro notifier request
    refine ⟨⟨request.Parameters.Limit.Value, optionalOf request.Parameters.OfferingType,
      optionalOf request.Parameters.ProgramType⟩, ?_, rfl, ?_, ?_, ?_, ?_⟩
    · cases transport <;> rfl
    · cases h : request.Parameters.OfferingType.IsSet <;> simp [optionalOf, h]
    · cases h : request.Parameters.ProgramType.IsSet <;> simp [optionalOf, h]
    · intro h
      simp [optionalOf, h]
    · intro h
      simp [optionalOf, h]

/-- Witness of C23: a request with `AssetId` set, and one with `OfferingType` set and
`ProgramType` not set, both without a transport. -/
theorem pull_parameters_are_optional_aware_witness :
    (∃ parameters : EntityInfoParameters,
      notifiedParameters (onPullEntityInfoInnerCallback none
        (fun _ => ⟨"2030", ⟨⟨none, none, none, none, none⟩, "title", "program", none, none,
          none, none, none, none, none, none, none, none⟩, none⟩)
        (some ⟨⟨true, "c-7"⟩, ⟨⟨true, "e1"⟩, ⟨true, "a1"⟩⟩⟩)) = [parameters] ∧
      parameters.entityId = "e1" ∧ parameters.assetId = some "a1") ∧
    (∃ parameters : PurchasedContentParameters,
      notifiedParameters (onPullPurchasedContentInnerCallback none
        (fun _ => ⟨"2030", 0, []⟩)
        (some ⟨⟨true, "c-8"⟩, ⟨⟨true, 100⟩, ⟨true, "rent"⟩, ⟨false, ""⟩⟩⟩)) = [parameters] ∧
      parameters.limit = 100 ∧ parameters.offeringType = some "rent" ∧
      parameters.programType.isSome = false) := by
  constructor
  · obtain ⟨parameters, h1, h2, _, h4⟩ :=
      (pull_parameters_are_optional_aware none).1
        (fun _ => ⟨"2030", ⟨⟨none, none, none, none, none⟩, "title", "program", none, none,
          none, none, none, none, none, none, none, none⟩, none⟩)
        ⟨⟨true, "c-7"⟩, ⟨⟨true, "e1"⟩, ⟨true, "a1"⟩⟩⟩
    exact ⟨parameters, h1, h2, h4 rfl⟩
  · obtain ⟨parameters, h1, h2, _, h4, h5, _⟩ :=
      (pull_parameters_are_optional_aware none).2 (fun _ => ⟨"2030", 0, []⟩)
        ⟨⟨true, "c-8"⟩, ⟨⟨true, 100⟩, ⟨true, "rent"⟩, ⟨false, ""⟩⟩⟩
    exact ⟨parameters, h1, h2, h5 rfl, h4⟩

/-- C24: for every listener interface and every notification object, `unsubscribe` hands
`Event::Unsubscribe` the event name and the listener key that `subscribe` handed
`Event::Subscribe`: the wire event name of the interface (`discovery.onNavigateTo` for the nine
intent listeners, `discovery.onPolicyChanged`, `discovery.onPullEntityInfo`,
`discovery.onPullPurchasedContent`) and the address of the notification object. -/
theorem unsubscribe_addresses_subscribed_pair (k : Listener) (event : Event)
    (notification : Address) (errSubscribe errUnsubscribe : Option Error) :
    ∃ (sub : Subscribed) (unsub : Unsubscribed),
      (k.subscribe event notification errSubscribe).subscribed = [sub] ∧
      (k.unsubscribe event notification errUnsubscribe).unsubscribed = [unsub] ∧
      unsub.eventName = sub.eventName ∧ unsub.listener = sub.listener ∧
      sub.eventName = k.wireEventName ∧ sub.listener = notification := by
  cases k <;> exact ⟨_, _, rfl, rfl, rfl, rfl, rfl, rfl⟩

/-- The wire event name of each listener interface, spelled out listener by listener. -/
theorem wireEventName_table :
    Listener.OnNavigateToEntityIntent.wireEventName = "discovery.onNavigateTo" ∧
    Listener.OnNavigateToHomeIntent.wireEventName = "discovery.onNavigateTo" ∧
    Listener.OnNavigateToLaunchIntent.wireEventName = "discovery.onNavigateTo" ∧
    Listener.OnNavigateToPlaybackIntent.wireEventName = "discovery.onNavigateTo" ∧
    Listener.OnNavigateToPlayEntityIntent.wireEventName = "discovery.onNavigateTo" ∧
    Listener.OnNavigateToPlayQueryIntent.wireEventName = "discovery.onNavigateTo" ∧
    Listener.OnNavigateToSearchIntent.wireEventName = "discovery.onNavigateTo" ∧
    Listener.OnNavigateToSectionIntent.wireEventName = "discovery.onNavigateTo" ∧
    Listener.OnNavigateToTuneIntent.wireEventName = "discovery.onNavigateTo" ∧
    Listener.OnPolicyChanged.wireEventName = "discovery.onPolicyChanged" ∧
    Listener.OnPullEntityInfo.wireEventName = "discovery.onPullEntityInfo" ∧
    Listener.OnPullPurchasedContent.wireEventName = "discovery.onPullPurchasedContent" :=
  ⟨rfl, rfl, rfl, rfl, rfl, rfl, rfl, rfl, rfl, rfl, rfl, rfl⟩

/-! ### Lookup in a serialised container -/

/-- No member is found in the serialisation of a container without members. -/
theorem get?_toVariant_nil (key : String) : (toVariant []).get? key = none := rfl

/-- Lookup in a serialised container, member by member: the first member decides when it bears
the name looked for and is set, the other members decide otherwise. -/
theorem get?_toVariant_cons (k key : String) (o : Option Json)
    (rest : List (String × Option Json)) :
    (toVariant ((k, o) :: rest)).get? key
      = if k = key then o.or ((toVariant rest).get? key) else (toVariant rest).get? key := by
  cases o with
  | none =>
    have h0 : (toVariant ((k, none) :: rest)).get? key = (toVariant rest).get? key := rfl
    rw [h0]
    by_cases h : k = key <;> simp [h]
  | some v =>
    have h1 : (toVariant ((k, some v) :: rest)).get? key
        = (((k, v) :: setMembers rest).find? (fun kv => kv.1 == key)).map Prod.snd := rfl
    rw [h1, List.find?_cons]
    by_cases h : k = key
    · subst h
      simp
    · have hb : (k == key) = false := by simpa using h
      simp only [hb, h, if_false]
      rfl

/-- The keys of a serialised container are names of members of the container. -/
theorem keys_toVariant_subset (fields : List (String × Option Json)) :
    ∀ key ∈ (toVariant fields).keys, key ∈ fields.map Prod.fst := by
  intro key hkey
  simp only [toVariant, Json.keys, setMembers, List.mem_map, List.mem_filterMap] at hkey
  obtain ⟨⟨k, v⟩, ⟨⟨k2, o⟩, hmem, hv⟩, hk⟩ := hkey
  cases o with
  | none => simp at hv
  | some w =>
    simp at hv
    obtain ⟨h1, h2⟩ := hv
    simp only at hk
    subst hk
    subst h1
    exact List.mem_map.2 ⟨(k2, some w), hmem, rfl⟩

/-- A nested container with a member that is set is serialised, as the object of its set
members. -/
theorem nested_eq_some (fields : List (String × Option Json)) (k : String) (v : Json)
    (h : (k, some v) ∈ fields) : nested fields = some (toVariant fields) := by
  have hmem : (k, v) ∈ setMembers fields := by
    simp only [setMembers, List.mem_filterMap]
    exact ⟨(k, some v), h, rfl⟩
  have hne : (setMembers fields).isEmpty = false := by
    cases hs : setMembers fields with
    | nil => rw [hs] at hmem; cases hmem
    | cons a as => rfl
  simp [nested, hne, toVariant]

/-- C4 as stated fails: `entitlements` on a transport whose `Invoke` returns `NotConnected` and
leaves `false` in the result holder returns `false`, which is the boolean of the holder, although
the status is not `None`; so "the returned value equals the result" does not imply "the status is
`None`". -/
theorem bool_result_equals_false_holder_under_failure :
    (entitlements (some (constTransport Error.NotConnected (Json.bool false))) [] none).outcome
      = Except.ok (Json.bool false).boolValue ∧
    ((constTransport Error.NotConnected (Json.bool false)).Invoke "discovery.entitlements"
        ⟨[("entitlements", Json.arr [])]⟩).status ≠ Error.None ∧
    ¬ ((entitlements (some (constTransport Error.NotConnected (Json.bool false))) []
          none).outcome = Except.ok (Json.bool false).boolValue ↔
        ((constTransport Error.NotConnected (Json.bool false)).Invoke "discovery.entitlements"
          ⟨[("entitlements", Json.arr [])]⟩).status = Error.None) := by
  refine ⟨rfl, ?_, ?_⟩
  · simp [constTransport]
  · intro h
    have h2 := h.1 rfl
    simp [constTransport] at h2

/-- C4, amended: every call of a method declared `bool`, other than the `launch` calls that take
the value of an empty optional, calls `Invoke` once on the transport, with the RPC method string
of the method, and returns the boolean of the result holder when the status of that call is
`None` and `false` when it is any other status, whatever the holder contains; without a
transport it returns `false`. -/
theorem bool_result_by_status (r : Request) (hb : r.returnsBool = true)
    (hm : r.readsAbsentOptional = false) (t : Transport) (err : Option Error) :
    (∃ inv : Invocation, (r.run (some t) err).invoked = [inv] ∧ inv.method = r.rpcName ∧
      ((t.Invoke inv.method inv.parameters).status = Error.None →
        (r.run (some t) err).outcome
          = Except.ok (Returned.bool (t.Invoke inv.method inv.parameters).result.boolValue)) ∧
      ((t.Invoke inv.method inv.parameters).status ≠ Error.None →
        (r.run (some t) err).outcome = Except.ok (Returned.bool false))) ∧
    (r.run none err).outcome = Except.ok (Returned.bool false) := by
  cases r with
  | clearContentAccess => simp [Request.returnsBool] at hb
  | contentAccess ids => simp [Request.returnsBool] at hb
  | userInterest ty re en => simp [Request.returnsBool] at hb
  | entitlements es =>
    refine ⟨⟨_, rfl, rfl, ?_, ?_⟩, rfl⟩ <;> intro h <;>
      simp [Request.run, asBool, entitlements, Except.map, h]
  | entityInfo res =>
    refine ⟨⟨_, rfl, rfl, ?_, ?_⟩, rfl⟩ <;> intro h <;>
      simp [Request.run, asBool, entityInfo, Except.map, h]
  | purchasedContent res =>
    refine ⟨⟨_, rfl, rfl, ?_, ?_⟩, rfl⟩ <;> intro h <;>
      simp [Request.run, asBool, purchasedContent, Except.map, h]
  | watchNext ti ids ex im =>
    refine ⟨⟨_, rfl, rfl, ?_, ?_⟩, rfl⟩ <;> intro h <;>
      simp [Request.run, asBool, watchNext, Except.map, h]
  | signIn es =>
    cases es with
    | none =>
      refine ⟨⟨⟨"discovery.signIn",
        JsonObject.empty.Set "entitlements" (entitlementsVariantArray [])⟩, ?_, rfl, ?_, ?_⟩,
        rfl⟩
      · simp only [Request.run, asBool, signIn]
        split <;> rfl
      · intro h
        simp only [Request.run, asBool, signIn, h, if_true, Except.map]
      · intro h
        simp only [Request.run, asBool, signIn, h, if_false, Except.map]
    | some xs =>
      refine ⟨⟨⟨"discovery.signIn",
        JsonObject.empty.Set "entitlements" (entitlementsVariantArray xs)⟩, ?_, rfl, ?_, ?_⟩,
        rfl⟩
      · simp only [Request.run, asBool, signIn]
        split <;> rfl
      · intro h
        simp only [Request.run, asBool, signIn, h, if_true, Except.map]
      · intro h
        simp only [Request.run, asBool, signIn, h, if_false, Except.map]
  | signOut =>
    refine ⟨⟨⟨"discovery.signOut", JsonObject.empty⟩, ?_, rfl, ?_, ?_⟩, rfl⟩
    · simp only [Request.run, asBool, signOut]
      split <;> rfl
    · intro h
      simp only [Request.run, asBool, signOut, h, if_true, Except.map]
    · intro h
      simp only [Request.run, asBool, signOut, h, if_false, Except.map]
  | launch l =>
    cases l with
    | HomeIntent a i =>
      refine ⟨⟨_, rfl, rfl, ?_, ?_⟩, rfl⟩ <;> intro h <;>
        simp [Request.run, launch, asBool, launch_HomeIntent, Except.map, h]
    | LaunchIntent a i =>
      refine ⟨⟨_, rfl, rfl, ?_, ?_⟩, rfl⟩ <;> intro h <;>
        simp [Request.run, launch, asBool, launch_LaunchIntent, Except.map, h]
    | EntityIntent a i =>
      refine ⟨⟨_, rfl, rfl, ?_, ?_⟩, rfl⟩ <;> intro h <;>
        simp [Request.run, launch, asBool, launch_EntityIntent, Except.map, h]
    | PlaybackIntent a i =>
      refine ⟨⟨_, rfl, rfl, ?_, ?_⟩, rfl⟩ <;> intro h <;>
        simp [Request.run, launch, asBool, launch_PlaybackIntent, Except.map, h]
    | SectionIntent a i =>
      refine ⟨⟨_, rfl, rfl, ?_, ?_⟩, rfl⟩ <;> intro h <;>
        simp [Request.run, launch, asBool, launch_SectionIntent, Except.map, h]
    | SearchIntent a i =>
      cases i with
      | none =>
        refine ⟨⟨_, rfl, rfl, ?_, ?_⟩, rfl⟩ <;> intro h <;>
          simp [Request.run, launch, asBool, launch_SearchIntent, Except.map, h]
      | some e =>
        obtain ⟨action, data, context⟩ := e
        cases data with
        | none => simp [Request.readsAbsentOptional, Launch.readsAbsentOptional] at hm
        | some d =>
          refine ⟨⟨_, rfl, rfl, ?_, ?_⟩, rfl⟩ <;> intro h <;>
            simp [Request.run, launch, asBool, launch_SearchIntent, value, Except.map, h]
    | TuneIntent a i =>
      cases i with
      | none =>
        refine ⟨⟨_, rfl, rfl, ?_, ?_⟩, rfl⟩ <;> intro h <;>
          simp [Request.run, launch, asBool, launch_TuneIntent, Except.map, h]
      | some e =>
        obtain ⟨action, ⟨entity, data⟩, context⟩ := e
        cases data with
        | none => simp [Request.readsAbsentOptional, Launch.readsAbsentOptional] at hm
        | some d =>
          refine ⟨⟨_, rfl, rfl, ?_, ?_⟩, rfl⟩ <;> intro h <;>
            simp [Request.run, launch, asBool, launch_TuneIntent, value, Except.map, h]
    | PlayEntityIntent a i =>
      cases i with
      | none =>
        refine ⟨⟨_, rfl, rfl, ?_, ?_⟩, rfl⟩ <;> intro h <;>
          simp [Request.run, launch, asBool, launch_PlayEntityIntent, Except.map, h]
      | some e =>
        obtain ⟨action, ⟨entity, data⟩, context⟩ := e
        cases data with
        | none => simp [Request.readsAbsentOptional, Launch.readsAbsentOptional] at hm
        | some d =>
          refine ⟨⟨_, rfl, rfl, ?_, ?_⟩, rfl⟩ <;> intro h <;>
            simp [Request.run, launch, asBool, launch_PlayEntityIntent, value, Except.map, h]
    | PlayQueryIntent a i =>
      cases i with
      | none =>
        refine ⟨⟨_, rfl, rfl, ?_, ?_⟩, rfl⟩ <;> intro h <;>
          simp [Request.run, launch, asBool, launch_PlayQueryIntent, Except.map, h]
      | some e =>
        obtain ⟨action, ⟨query, data⟩, context⟩ := e
        cases data with
        | none => simp [Request.readsAbsentOptional, Launch.readsAbsentOptional] at hm
        | some d =>
          refine ⟨⟨_, rfl, rfl, ?_, ?_⟩, rfl⟩ <;> intro h <;>
            simp [Request.run, launch, asBool, launch_PlayQueryIntent, value, Except.map, h]

/-- Witness of C4, amended: `purchasedContent` on a transport that fails with the holder at
`true`, and on one that succeeds with the holder at `true`. -/
theorem bool_result_by_status_witness :
    (Request.purchasedContent ⟨"2030", 0, []⟩).returnsBool = true ∧
    (Request.purchasedContent ⟨"2030", 0, []⟩).readsAbsentOptional = false ∧
    (∃ inv : Invocation,
      (Request.run (some (constTransport Error.NotConnected (Json.bool true))) none
        (Request.purchasedContent ⟨"2030", 0, []⟩)).invoked = [inv] ∧
      inv.method = "discovery.purchasedContent") ∧
    (Request.run (some (constTransport Error.NotConnected (Json.bool true))) none
      (Request.purchasedContent ⟨"2030", 0, []⟩)).outcome = Except.ok (Returned.bool false) ∧
    (Request.run (some (constTransport Error.None (Json.bool true))) none
      (Request.purchasedContent ⟨"2030", 0, []⟩)).outcome = Except.ok (Returned.bool true) ∧
    (Request.run none none (Request.purchasedContent ⟨"2030", 0, []⟩)).outcome
      = Except.ok (Returned.bool false) := by
  obtain ⟨⟨inv, h1, h2, _, h4⟩, h5⟩ :=
    bool_result_by_status (Request.purchasedContent ⟨"2030", 0, []⟩) rfl rfl
      (constTransport Error.NotConnected (Json.bool true)) none
  obtain ⟨⟨inv2, _, _, h7, _⟩, _⟩ :=
    bool_result_by_status (Request.purchasedContent ⟨"2030", 0, []⟩) rfl rfl
      (constTransport Error.None (Json.bool true)) none
  exact ⟨rfl, rfl, ⟨inv, h1, h2⟩, h4 (by simp [constTransport]), h7 rfl, h5⟩

/-- C5, on the code: on a transport every request method calls `Invoke` once, under the RPC method
string named after it and no other, except that `userInterest` on an entity without `info` and
`launch` on a `SearchIntent` without `data` or on a `TuneIntent`, `PlayEntityIntent` or
`PlayQueryIntent` without `data.options` invoke nothing at all; without a transport no method
invokes anything. At `launch` on a `SearchIntent` without `data` the list of invoked method
strings is empty, not `discovery.launch`. -/
theorem request_invokes_own_rpc_name_unless_optional_absent (r : Request) (t : Transport)
    (err : Option Error) :
    (r.run none err).invoked = [] ∧
    (Request.run (some t) err
      (Request.launch (Launch.SearchIntent "app" (some ⟨"search", none, ⟨"voice"⟩⟩)))).invoked.map
        Invocation.method = [] ∧
    (r.run (some t) err).invoked.map Invocation.method
      = (if r.readsAbsentOptional = true then [] else [r.rpcName]) := by
  cases r with
  | clearContentAccess => exact ⟨rfl, rfl, rfl⟩
  | contentAccess ids => exact ⟨rfl, rfl, rfl⟩
  | entitlements es => exact ⟨rfl, rfl, rfl⟩
  | entityInfo res => exact ⟨rfl, rfl, rfl⟩
  | purchasedContent res => exact ⟨rfl, rfl, rfl⟩
  | watchNext ti ids ex im => exact ⟨rfl, rfl, rfl⟩
  | signIn es =>
    refine ⟨rfl, rfl, ?_⟩
    simp only [Request.run, asBool, signIn]
    split <;> rfl
  | signOut =>
    refine ⟨rfl, rfl, ?_⟩
    simp only [Request.run, asBool, signOut]
    split <;> rfl
  | userInterest ty re en =>
    obtain ⟨identifiers, info, waysToWatch⟩ := en
    cases info with
    | none => exact ⟨rfl, rfl, rfl⟩
    | some i => exact ⟨rfl, rfl, rfl⟩
  | launch l =>
    cases l with
    | HomeIntent a i => exact ⟨rfl, rfl, rfl⟩
    | LaunchIntent a i => exact ⟨rfl, rfl, rfl⟩
    | EntityIntent a i => exact ⟨rfl, rfl, rfl⟩
    | PlaybackIntent a i => exact ⟨rfl, rfl, rfl⟩
    | SectionIntent a i => exact ⟨rfl, rfl, rfl⟩
    | SearchIntent a i =>
      cases i with
      | none => exact ⟨rfl, rfl, rfl⟩
      | some e =>
        obtain ⟨action, data, context⟩ := e
        cases data with
        | none => exact ⟨rfl, rfl, rfl⟩
        | some d => exact ⟨rfl, rfl, rfl⟩
    | TuneIntent a i =>
      cases i with
      | none => exact ⟨rfl, rfl, rfl⟩
      | some e =>
        obtain ⟨action, ⟨entity, data⟩, context⟩ := e
        cases data with
        | none => exact ⟨rfl, rfl, rfl⟩
        | some d => exact ⟨rfl, rfl, rfl⟩
    | PlayEntityIntent a i =>
      cases i with
      | none => exact ⟨rfl, rfl, rfl⟩
      | some e =>
        obtain ⟨action, ⟨entity, data⟩, context⟩ := e
        cases data with
        | none => exact ⟨rfl, rfl, rfl⟩
        | some d => exact ⟨rfl, rfl, rfl⟩
    | PlayQueryIntent a i =>
      cases i with
      | none => exact ⟨rfl, rfl, rfl⟩
      | some e =>
        obtain ⟨action, ⟨query, data⟩, context⟩ := e
        cases data with
        | none => exact ⟨rfl, rfl, rfl⟩
        | some d => exact ⟨rfl, rfl, rfl⟩

/-- C8, on the code: on a transport every `launch` overload sends one `discovery.launch` request
whose parameters hold `appId`, equal to the given one, hold `intent` exactly when the intent
argument has a value, and hold no other key, except on a `SearchIntent` without `data` and on a
`TuneIntent`, `PlayEntityIntent` or `PlayQueryIntent` without `data.options`: there the intent
argument has a value and the call ends in `bad_optional_access` with no request sent, so no
parameter object with `intent`, or with `appId`, reaches the transport. -/
theorem launch_parameters_unless_optional_absent (l : Launch) (t : Transport)
    (err : Option Error) :
    if l.readsAbsentOptional = true then
      l.hasIntent = true ∧ (launch (some t) l err).invoked = [] ∧
        (launch (some t) l err).outcome = Except.error Exception.bad_optional_access
    else
      ∃ p : JsonObject, (launch (some t) l err).invoked = [⟨"discovery.launch", p⟩] ∧
        p.get? "appId" = some (Json.str l.appId) ∧
        p.contains "intent" = l.hasIntent ∧
        p.keys = (if l.hasIntent = true then ["appId", "intent"] else ["appId"]) := by
  cases l with
  | HomeIntent a i =>
    cases i <;>
      simp [Launch.readsAbsentOptional, Launch.hasIntent, Launch.appId, launch, launch_HomeIntent,
        JsonObject.get?, JsonObject.contains, JsonObject.keys, JsonObject.Set,
        JsonObject.empty, setMember, Json.get?]
  | LaunchIntent a i =>
    cases i <;>
      simp [Launch.readsAbsentOptional, Launch.hasIntent, Launch.appId, launch, launch_LaunchIntent,
        JsonObject.get?, JsonObject.contains, JsonObject.keys, JsonObject.Set,
        JsonObject.empty, setMember, Json.get?]
  | EntityIntent a i =>
    cases i <;>
      simp [Launch.readsAbsentOptional, Launch.hasIntent, Launch.appId, launch, launch_EntityIntent,
        JsonObject.get?, JsonObject.contains, JsonObject.keys, JsonObject.Set,
        JsonObject.empty, setMember, Json.get?]
  | PlaybackIntent a i =>
    cases i <;>
      simp [Launch.readsAbsentOptional, Launch.hasIntent, Launch.appId, launch, launch_PlaybackIntent,
        JsonObject.get?, JsonObject.contains, JsonObject.keys, JsonObject.Set,
        JsonObject.empty, setMember, Json.get?]
  | SectionIntent a i =>
    cases i <;>
      simp [Launch.readsAbsentOptional, Launch.hasIntent, Launch.appId, launch, launch_SectionIntent,
        JsonObject.get?, JsonObject.contains, JsonObject.keys, JsonObject.Set,
        JsonObject.empty, setMember, Json.get?]
  | SearchIntent a i =>
    cases i with
    | none =>
      simp [Launch.readsAbsentOptional, Launch.hasIntent, Launch.appId, launch, launch_SearchIntent,
        JsonObject.get?, JsonObject.contains, JsonObject.keys, JsonObject.Set,
        JsonObject.empty, setMember, Json.get?]
    | some e =>
      obtain ⟨action, data, context⟩ := e
      cases data <;>
        simp [Launch.readsAbsentOptional, Launch.hasIntent, Launch.appId, launch,
          launch_SearchIntent, value, JsonObject.get?, JsonObject.contains, JsonObject.keys,
          JsonObject.Set, JsonObject.empty, setMember, Json.get?]
  | TuneIntent a i =>
    cases i with
    | none =>
      simp [Launch.readsAbsentOptional, Launch.hasIntent, Launch.appId, launch, launch_TuneIntent,
        JsonObject.get?, JsonObject.contains, JsonObject.keys, JsonObject.Set,
        JsonObject.empty, setMember, Json.get?]
    | some e =>
      obtain ⟨action, ⟨entity, data⟩, context⟩ := e
      cases data <;>
        simp [Launch.readsAbsentOptional, Launch.hasIntent, Launch.appId, launch,
          launch_TuneIntent, value, JsonObject.get?, JsonObject.contains, JsonObject.keys,
          JsonObject.Set, JsonObject.empty, setMember, Json.get?]
  | PlayEntityIntent a i =>
    cases i with
    | none =>
      simp [Launch.readsAbsentOptional, Launch.hasIntent, Launch.appId, launch, launch_PlayEntityIntent,
        JsonObject.get?, JsonObject.contains, JsonObject.keys, JsonObject.Set,
        JsonObject.empty, setMember, Json.get?]
    | some e =>
      obtain ⟨action, ⟨entity, data⟩, context⟩ := e
      cases data <;>
        simp [Launch.readsAbsentOptional, Launch.hasIntent, Launch.appId, launch,
          launch_PlayEntityIntent, value, JsonObject.get?, JsonObject.contains, JsonObject.keys,
          JsonObject.Set, JsonObject.empty, setMember, Json.get?]
  | PlayQueryIntent a i =>
    cases i with
    | none =>
      simp [Launch.readsAbsentOptional, Launch.hasIntent, Launch.appId, launch, launch_PlayQueryIntent,
        JsonObject.get?, JsonObject.contains, JsonObject.keys, JsonObject.Set,
        JsonObject.empty, setMember, Json.get?]
    | some e =>
      obtain ⟨action, ⟨query, data⟩, context⟩ := e
      cases data <;>
        simp [Launch.readsAbsentOptional, Launch.hasIntent, Launch.appId, launch,
          launch_PlayQueryIntent, value, JsonObject.get?, JsonObject.contains, JsonObject.keys,
          JsonObject.Set, JsonObject.empty, setMember, Json.get?]

/-- C9, on the code: `contentAccess` does not keep an empty list distinct from an absent one. The
member of `ids` is assigned a copy of an array that was default-constructed and filled by one
`Add()` per item, so with an empty list, as with an absent one, the field is missing from `ids`:
two empty lists and two absent lists send the same request, with `ids` the empty object. A list
with items is sent as the array of its items in order, each item holding `type` and `id` (resp.
`entitlementId`) and of `catalogId`, `startTime`, `endTime` exactly those that have a value. -/
theorem contentAccess_sends_empty_list_as_absent (t : Transport) (err : Option Error) :
    (contentAccess (some t) ⟨some [], some []⟩ err).invoked
      = [⟨"discovery.contentAccess", ⟨[("ids", Json.obj [])]⟩⟩] ∧
    (contentAccess (some t) ⟨none, none⟩ err).invoked
      = [⟨"discovery.contentAccess", ⟨[("ids", Json.obj [])]⟩⟩] ∧
    (∀ ids : ContentAccessIdentifiers, ∃ idsVariant : Json,
      (contentAccess (some t) ids err).invoked
        = [⟨"discovery.contentAccess", ⟨[("ids", idsVariant)]⟩⟩] ∧
      idsVariant.get? "availabilities"
        = ids.availabilities.bind (fun xs =>
            if xs.isEmpty = true then none
            else some (Json.arr (xs.map (fun a => toVariant (availabilityFields a))))) ∧
      idsVariant.get? "entitlements"
        = ids.entitlements.bind (fun xs =>
            if xs.isEmpty = true then none
            else some (Json.arr (xs.map (fun e => toVariant (entitlementFields e))))) ∧
      ∀ key ∈ idsVariant.keys, key ∈ ["availabilities", "entitlements"]) ∧
    (∀ a : Availability,
      (toVariant (availabilityFields a)).get? "type" = some (Json.str a.type.wireName) ∧
      (toVariant (availabilityFields a)).get? "id" = some (Json.str a.id) ∧
      (toVariant (availabilityFields a)).get? "catalogId" = a.catalogId.map Json.str ∧
      (toVariant (availabilityFields a)).get? "startTime" = a.startTime.map Json.str ∧
      (toVariant (availabilityFields a)).get? "endTime" = a.endTime.map Json.str ∧
      ∀ key ∈ (toVariant (availabilityFields a)).keys,
        key ∈ ["type", "id", "catalogId", "startTime", "endTime"]) ∧
    (∀ e : Entertainment.Entitlement,
      (toVariant (entitlementFields e)).get? "entitlementId" = some (Json.str e.entitlementId) ∧
      (toVariant (entitlementFields e)).get? "startTime" = e.startTime.map Json.str ∧
      (toVariant (entitlementFields e)).get? "endTime" = e.endTime.map Json.str ∧
      ∀ key ∈ (toVariant (entitlementFields e)).keys,
        key ∈ ["entitlementId", "startTime", "endTime"]) := by
  refine ⟨rfl, rfl, ?_, ?_, ?_⟩
  · intro ids
    obtain ⟨availabilities, entitlements⟩ := ids
    refine ⟨_, rfl, ?_, ?_, ?_⟩
    · rcases availabilities with _ | _ | ⟨x, xs⟩ <;>
        simp [contentAccessIdentifiersFields, arrayMember, get?_toVariant_cons,
          get?_toVariant_nil]
    · rcases entitlements with _ | _ | ⟨x, xs⟩ <;>
        simp [contentAccessIdentifiersFields, arrayMember, get?_toVariant_cons,
          get?_toVariant_nil]
    · intro key hkey
      simpa [contentAccessIdentifiersFields] using
        keys_toVariant_subset (contentAccessIdentifiersFields ⟨availabilities, entitlements⟩)
          key hkey
  · intro a
    refine ⟨?_, ?_, ?_, ?_, ?_, ?_⟩
    · simp [availabilityFields, get?_toVariant_cons, get?_toVariant_nil]
    · simp [availabilityFields, get?_toVariant_cons, get?_toVariant_nil]
    · simp [availabilityFields, get?_toVariant_cons, get?_toVariant_nil]
    · simp [availabilityFields, get?_toVariant_cons, get?_toVariant_nil]
    · simp [availabilityFields, get?_toVariant_cons, get?_toVariant_nil]
    · intro key hkey
      simpa [availabilityFields] using keys_toVariant_subset (availabilityFields a) key hkey
  · intro e
    refine ⟨?_, ?_, ?_, ?_⟩
    · simp [entitlementFields, get?_toVariant_cons, get?_toVariant_nil]
    · simp [entitlementFields, get?_toVariant_cons, get?_toVariant_nil]
    · simp [entitlementFields, get?_toVariant_cons, get?_toVariant_nil]
    · intro key hkey
      simpa [entitlementFields] using keys_toVariant_subset (entitlementFields e) key hkey

/-- C10, amended: `clearContentAccess` and `contentAccess` with two empty lists each send one
request of their own and store the status of their own `Invoke` in `*err`: the first sends
`discovery.clearContentAccess` with an empty parameter object, the second sends
`discovery.contentAccess` with a parameter object whose only member is `ids`; without a transport
neither sends anything and both store `NotConnected`. -/
theorem clearContentAccess_sends_its_own_request (t : Transport) (err : Option Error) :
    (clearContentAccess (some t) err).invoked = [⟨"discovery.clearContentAccess", ⟨[]⟩⟩] ∧
    (clearContentAccess (some t) err).err
      = err.map (fun _ => (t.Invoke "discovery.clearContentAccess" ⟨[]⟩).status) ∧
    (∃ idsVariant : Json,
      (contentAccess (some t) ⟨some [], some []⟩ err).invoked
        = [⟨"discovery.contentAccess", ⟨[("ids", idsVariant)]⟩⟩] ∧
      (contentAccess (some t) ⟨some [], some []⟩ err).err
        = err.map (fun _ => (t.Invoke "discovery.contentAccess" ⟨[("ids", idsVariant)]⟩).status)) ∧
    (clearContentAccess none err).invoked = [] ∧
    (contentAccess none ⟨some [], some []⟩ err).invoked = [] ∧
    (clearContentAccess none err).err = err.map (fun _ => Error.NotConnected) ∧
    (contentAccess none ⟨some [], some []⟩ err).err = err.map (fun _ => Error.NotConnected) :=
  ⟨rfl, rfl, ⟨_, rfl, rfl⟩, rfl, rfl, rfl, rfl⟩

/-- C7: on a valid pull request with a transport available, each pull callback first calls the
listener once, with the parameters read from the request, and then calls `Invoke` once, with
`discovery.entityInfo` (resp. `discovery.purchasedContent`) and a parameter object made of
`correlationId`, equal to the correlation id of the request, and `result`. The result holds the
value the listener returned, member by member: `expires`, `entity` and `related` (resp. `expires`,
`totalCount` and `entries`), every entity with its title, entity type, identifiers and each
optional member that has a value, every content rating and every way to watch likewise; a list is
sent as the array of its items in order when it has an item, and no other member is sent. -/
theorem pull_callbacks_answer_with_listener_result (t : Transport) :
    (∀ (notifier : EntityInfoParameters → EntityInfoResult)
        (request : JsonData_EntityInfoFederatedRequest),
      ∃ (parameters : EntityInfoParameters) (result : Json),
        onPullEntityInfoInnerCallback (some t) notifier (some request)
          = [PullStep.notified parameters,
             PullStep.invoked ⟨"discovery.entityInfo",
               ⟨[("correlationId", Json.str request.CorrelationId.Value),
                 ("result", result)]⟩⟩] ∧
        parameters = ⟨request.Parameters.EntityId.Value,
          if request.Parameters.AssetId.IsSet = true then some request.Parameters.AssetId.Value
          else none⟩ ∧
        result.get? "expires" = some (Json.str (notifier parameters).expires) ∧
        result.get? "entity" = some (toVariant (entityInfoFields (notifier parameters).entity)) ∧
        result.get? "related" = (notifier parameters).related.bind (fun xs =>
          if xs.isEmpty = true then none
          else some (Json.arr (xs.map (fun e => toVariant (entityInfoFields e))))) ∧
        ∀ key ∈ result.keys, key ∈ ["expires", "entity", "related"]) ∧
    (∀ (notifier : PurchasedContentParameters → PurchasedContentResult)
        (request : JsonData_PurchasedContentFederatedRequest),
      ∃ (parameters : PurchasedContentParameters) (result : Json),
        onPullPurchasedContentInnerCallback (some t) notifier (some request)
          = [PullStep.notified parameters,
             PullStep.invoked ⟨"discovery.purchasedContent",
               ⟨[("correlationId", Json.str request.CorrelationId.Value),
                 ("result", result)]⟩⟩] ∧
        parameters = ⟨request.Parameters.Limit.Value,
          if request.Parameters.OfferingType.IsSet = true
            then some request.Parameters.OfferingType.Value else none,
          if request.Parameters.ProgramType.IsSet = true
            then some request.Parameters.ProgramType.Value else none⟩ ∧
        result.get? "expires" = some (Json.str (notifier parameters).expires) ∧
        result.get? "totalCount" = some (Json.num (notifier parameters).totalCount) ∧
        result.get? "entries" = (if (notifier parameters).entries.isEmpty = true then none
          else some (Json.arr ((notifier parameters).entries.map
            (fun e => toVariant (entityInfoFields e))))) ∧
        ∀ key ∈ result.keys, key ∈ ["expires", "totalCount", "entries"]) ∧
    (∀ e : Entertainment.EntityInfo,
      (toVariant (entityInfoFields e)).get? "identifiers"
        = nested (contentIdentifiersFields e.identifiers) ∧
      (toVariant (entityInfoFields e)).get? "title" = some (Json.str e.title) ∧
      (toVariant (entityInfoFields e)).get? "entityType" = some (Json.str e.entityType) ∧
      (toVariant (entityInfoFields e)).get? "programType" = e.programType.map Json.str ∧
      (toVariant (entityInfoFields e)).get? "musicType" = e.musicType.map Json.str ∧
      (toVariant (entityInfoFields e)).get? "synopsis" = e.synopsis.map Json.str ∧
      (toVariant (entityInfoFields e)).get? "seasonNumber" = e.seasonNumber.map Json.num ∧
      (toVariant (entityInfoFields e)).get? "seasonCount" = e.seasonCount.map Json.num ∧
      (toVariant (entityInfoFields e)).get? "episodeNumber" = e.episodeNumber.map Json.num ∧
      (toVariant (entityInfoFields e)).get? "episodeCount" = e.episodeCount.map Json.num ∧
      (toVariant (entityInfoFields e)).get? "releaseDate" = e.releaseDate.map Json.str ∧
      (toVariant (entityInfoFields e)).get? "contentRatings" = e.contentRatings.bind (fun xs =>
        if xs.isEmpty = true then none
        else some (Json.arr (xs.map (fun c => toVariant (contentRatingFields c))))) ∧
      (toVariant (entityInfoFields e)).get? "waysToWatch" = e.waysToWatch.bind (fun xs =>
        if xs.isEmpty = true then none
        else some (Json.arr (xs.map (fun w => toVariant (wayToWatchFields w))))) ∧
      ∀ key ∈ (toVariant (entityInfoFields e)).keys,
        key ∈ ["identifiers", "title", "entityType", "programType", "musicType", "synopsis",
          "seasonNumber", "seasonCount", "episodeNumber", "episodeCount", "releaseDate",
          "contentRatings", "waysToWatch"]) ∧
    (∀ ids : Entertainment.ContentIdentifiers,
      nested (contentIdentifiersFields ids)
        = (if ids.assetId = none ∧ ids.entityId = none ∧ ids.seasonId = none ∧
              ids.seriesId = none ∧ ids.appContentData = none then none
            else some (toVariant (contentIdentifiersFields ids))) ∧
      (toVariant (contentIdentifiersFields ids)).get? "assetId" = ids.assetId.map Json.str ∧
      (toVariant (contentIdentifiersFields ids)).get? "entityId" = ids.entityId.map Json.str ∧
      (toVariant (contentIdentifiersFields ids)).get? "seasonId" = ids.seasonId.map Json.str ∧
      (toVariant (contentIdentifiersFields ids)).get? "seriesId" = ids.seriesId.map Json.str ∧
      (toVariant (contentIdentifiersFields ids)).get? "appContentData"
        = ids.appContentData.map Json.str ∧
      ∀ key ∈ (toVariant (contentIdentifiersFields ids)).keys,
        key ∈ ["assetId", "entityId", "seasonId", "seriesId", "appContentData"]) ∧
    (∀ c : Entertainment.ContentRating,
      (toVariant (contentRatingFields c)).get? "scheme" = some (Json.str c.scheme) ∧
      (toVariant (contentRatingFields c)).get? "rating" = some (Json.str c.rating) ∧
      (toVariant (contentRatingFields c)).get? "advisories" = c.advisories.bind (fun xs =>
        if xs.isEmpty = true then none else some (Json.arr (xs.map Json.str))) ∧
      ∀ key ∈ (toVariant (contentRatingFields c)).keys,
        key ∈ ["scheme", "rating", "advisories"]) ∧
    (∀ w : Entertainment.WayToWatch,
      (toVariant (wayToWatchFields w)).get? "identifiers"
        = nested (contentIdentifiersFields w.identifiers) ∧
      (toVariant (wayToWatchFields w)).get? "expires" = w.expires.map Json.str ∧
      (toVariant (wayToWatchFields w)).get? "entitled" = w.entitled.map Json.bool ∧
      (toVariant (wayToWatchFields w)).get? "entitledExpires" = w.entitledExpires.map Json.str ∧
      (toVariant (wayToWatchFields w)).get? "offeringType" = w.offeringType.map Json.str ∧
      (toVariant (wayToWatchFields w)).get? "hasAds" = w.hasAds.map Json.bool ∧
      (toVariant (wayToWatchFields w)).get? "price" = w.price.map Json.num ∧
      (toVariant (wayToWatchFields w)).get? "videoQuality" = w.videoQuality.bind (fun xs =>
        if xs.isEmpty = true then none else some (Json.arr (xs.map Json.str))) ∧
      (toVariant (wayToWatchFields w)).get? "audioLanguages" = w.audioLanguages.bind (fun xs =>
        if xs.isEmpty = true then none else some (Json.arr (xs.map Json.str))) ∧
      (toVariant (wayToWatchFields w)).get? "closedCaptions" = w.closedCaptions.bind (fun xs =>
        if xs.isEmpty = true then none else some (Json.arr (xs.map Json.str))) ∧
      (toVariant (wayToWatchFields w)).get? "subtitles" = w.subtitles.bind (fun xs =>
        if xs.isEmpty = true then none else some (Json.arr (xs.map Json.str))) ∧
      (toVariant (wayToWatchFields w)).get? "audioDescriptions" = w.audioDescriptions.bind (fun xs =>
        if xs.isEmpty = true then none else some (Json.arr (xs.map Json.str))) ∧
      (toVariant (wayToWatchFields w)).get? "audioProfile"
        = (if w.audioProfile.isEmpty = true then none
          else some (Json.arr (w.audioProfile.map Json.str))) ∧
      ∀ key ∈ (toVariant (wayToWatchFields w)).keys,
        key ∈ ["identifiers", "expires", "entitled", "entitledExpires", "offeringType", "hasAds",
          "price", "videoQuality", "audioProfile", "audioLanguages", "closedCaptions",
          "subtitles", "audioDescriptions"]) := by
  refine ⟨?_, ?_, ?_, ?_, ?_, ?_⟩
  · intro notifier request
    refine ⟨_, _, rfl, ?_, ?_, ?_, ?_, ?_⟩
    · simp [optionalOf]
    · simp [entityInfoResultFields, get?_toVariant_cons, get?_toVariant_nil, Option.or_none]
    · have hn := nested_eq_some
        (entityInfoFields (notifier ⟨request.Parameters.EntityId.Value,
          optionalOf request.Parameters.AssetId⟩).entity) "title"
        (Json.str (notifier ⟨request.Parameters.EntityId.Value,
          optionalOf request.Parameters.AssetId⟩).entity.title) (by simp [entityInfoFields])
      simp [entityInfoResultFields, get?_toVariant_cons, get?_toVariant_nil, Option.or_none, hn]
    · rcases h : (notifier ⟨request.Parameters.EntityId.Value,
          optionalOf request.Parameters.AssetId⟩).related with _ | _ | ⟨x, xs⟩ <;>
        simp [entityInfoResultFields, entityInfoArray, arrayMember, get?_toVariant_cons, get?_toVariant_nil, Option.or_none, h]
    · intro key hkey
      simpa [entityInfoResultFields] using keys_toVariant_subset _ key hkey
  · intro notifier request
    refine ⟨_, _, rfl, ?_, ?_, ?_, ?_, ?_⟩
    · simp [optionalOf]
    · simp [purchasedContentResultFields, get?_toVariant_cons, get?_toVariant_nil, Option.or_none]
    · simp [purchasedContentResultFields, get?_toVariant_cons, get?_toVariant_nil, Option.or_none]
    · rcases h : (notifier ⟨request.Parameters.Limit.Value,
          optionalOf request.Parameters.OfferingType,
          optionalOf request.Parameters.ProgramType⟩).entries with _ | ⟨x, xs⟩ <;>
        simp [purchasedContentResultFields, entityInfoArray, arrayMember, get?_toVariant_cons, get?_toVariant_nil, Option.or_none, h]
    · intro key hkey
      simpa [purchasedContentResultFields] using keys_toVariant_subset _ key hkey
  · intro e
    obtain ⟨identifiers, title, entityType, programType, musicType, synopsis, seasonNumber,
      seasonCount, episodeNumber, episodeCount, releaseDate, contentRatings, waysToWatch⟩ := e
    refine ⟨?_, ?_, ?_, ?_, ?_, ?_, ?_, ?_, ?_, ?_, ?_, ?_, ?_, ?_⟩
    · simp [entityInfoFields, get?_toVariant_cons, get?_toVariant_nil, Option.or_none]
    · simp [entityInfoFields, get?_toVariant_cons, get?_toVariant_nil, Option.or_none]
    · simp [entityInfoFields, get?_toVariant_cons, get?_toVariant_nil, Option.or_none]
    · simp [entityInfoFields, get?_toVariant_cons, get?_toVariant_nil, Option.or_none]
    · simp [entityInfoFields, get?_toVariant_cons, get?_toVariant_nil, Option.or_none]
    · simp [entityInfoFields, get?_toVariant_cons, get?_toVariant_nil, Option.or_none]
    · simp [entityInfoFields, get?_toVariant_cons, get?_toVariant_nil, Option.or_none]
    · simp [entityInfoFields, get?_toVariant_cons, get?_toVariant_nil, Option.or_none]
    · simp [entityInfoFields, get?_toVariant_cons, get?_toVariant_nil, Option.or_none]
    · simp [entityInfoFields, get?_toVariant_cons, get?_toVariant_nil, Option.or_none]
    · simp [entityInfoFields, get?_toVariant_cons, get?_toVariant_nil, Option.or_none]
    · rcases contentRatings with _ | _ | ⟨x, xs⟩ <;>
        simp [entityInfoFields, contentRatingsArray, arrayMember, get?_toVariant_cons, get?_toVariant_nil, Option.or_none]
    · rcases waysToWatch with _ | _ | ⟨x, xs⟩ <;>
        simp [entityInfoFields, waysToWatchArray, arrayMember, get?_toVariant_cons, get?_toVariant_nil, Option.or_none]
    · intro key hkey
      simpa [entityInfoFields] using keys_toVariant_subset _ key hkey
  · intro ids
    obtain ⟨assetId, entityId, seasonId, seriesId, appContentData⟩ := ids
    refine ⟨?_, ?_, ?_, ?_, ?_, ?_, ?_⟩
    · cases assetId <;> cases entityId <;> cases seasonId <;> cases seriesId <;>
        cases appContentData <;>
        simp [nested, toVariant, setMembers, contentIdentifiersFields]
    · simp [contentIdentifiersFields, get?_toVariant_cons, get?_toVariant_nil, Option.or_none]
    · simp [contentIdentifiersFields, get?_toVariant_cons, get?_toVariant_nil, Option.or_none]
    · simp [contentIdentifiersFields, get?_toVariant_cons, get?_toVariant_nil, Option.or_none]
    · simp [contentIdentifiersFields, get?_toVariant_cons, get?_toVariant_nil, Option.or_none]
    · simp [contentIdentifiersFields, get?_toVariant_cons, get?_toVariant_nil, Option.or_none]
    · intro key hkey
      simpa [contentIdentifiersFields] using keys_toVariant_subset _ key hkey
  · intro c
    obtain ⟨scheme, rating, advisories⟩ := c
    refine ⟨?_, ?_, ?_, ?_⟩
    · simp [contentRatingFields, get?_toVariant_cons, get?_toVariant_nil, Option.or_none]
    · simp [contentRatingFields, get?_toVariant_cons, get?_toVariant_nil, Option.or_none]
    · rcases advisories with _ | _ | ⟨x, xs⟩ <;>
        simp [contentRatingFields, stringArray, arrayMember, get?_toVariant_cons, get?_toVariant_nil, Option.or_none]
    · intro key hkey
      simpa [contentRatingFields] using keys_toVariant_subset _ key hkey
  · intro w
    obtain ⟨identifiers, expires, entitled, entitledExpires, offeringType, hasAds, price,
      videoQuality, audioProfile, audioLanguages, closedCaptions, subtitles,
      audioDescriptions⟩ := w
    refine ⟨?_, ?_, ?_, ?_, ?_, ?_, ?_, ?_, ?_, ?_, ?_, ?_, ?_, ?_⟩
    · simp [wayToWatchFields, get?_toVariant_cons, get?_toVariant_nil, Option.or_none]
    · simp [wayToWatchFields, get?_toVariant_cons, get?_toVariant_nil, Option.or_none]
    · simp [wayToWatchFields, get?_toVariant_cons, get?_toVariant_nil, Option.or_none]
    · simp [wayToWatchFields, get?_toVariant_cons, get?_toVariant_nil, Option.or_none]
    · simp [wayToWatchFields, get?_toVariant_cons, get?_toVariant_nil, Option.or_none]
    · simp [wayToWatchFields, get?_toVariant_cons, get?_toVariant_nil, Option.or_none]
    · simp [wayToWatchFields, get?_toVariant_cons, get?_toVariant_nil, Option.or_none]
    · rcases videoQuality with _ | _ | ⟨x, xs⟩ <;>
        simp [wayToWatchFields, stringArray, arrayMember, get?_toVariant_cons, get?_toVariant_nil, Option.or_none]
    · rcases audioLanguages with _ | _ | ⟨x, xs⟩ <;>
        simp [wayToWatchFields, stringArray, arrayMember, get?_toVariant_cons, get?_toVariant_nil, Option.or_none]
    · rcases closedCaptions with _ | _ | ⟨x, xs⟩ <;>
        simp [wayToWatchFields, stringArray, arrayMember, get?_toVariant_cons, get?_toVariant_nil, Option.or_none]
    · rcases subtitles with _ | _ | ⟨x, xs⟩ <;>
        simp [wayToWatchFields, stringArray, arrayMember, get?_toVariant_cons, get?_toVariant_nil, Option.or_none]
    · rcases audioDescriptions with _ | _ | ⟨x, xs⟩ <;>
        simp [wayToWatchFields, stringArray, arrayMember, get?_toVariant_cons, get?_toVariant_nil, Option.or_none]
    · rcases audioProfile with _ | ⟨x, xs⟩ <;>
        simp [wayToWatchFields, stringArray, arrayMember, get?_toVariant_cons, get?_toVariant_nil, Option.or_none]
    · intro key hkey
      simpa [wayToWatchFields] using keys_toVariant_subset _ key hkey

end Discovery

end Firebolt
